import Mathlib

/-!
Resolution, mutation and target orchestration of the `cli` repository.

A shallow embedding of

* `actor/v2action/application.go`: `Application.CalculatedBuildpack`,
  `Actor.GetApplicationByNameAndSpace`, `Actor.GetRouteApplications`,
  `Actor.SetApplicationHealthCheckTypeByNameAndSpace`;
* `command/v2/target_command.go`: `TargetCommand.Execute` and its helpers
  `setOrgAndSpace`, `setOrg`, `autoTargetSpace`, `setSpace`,
  `displayTargetTable`, `notifyCLIUpdateIfNeeded`.

Remote collaborators (the cloud controller client, the target actor) are
interfaces in the source.  They are embedded as records of state-passing
functions over an arbitrary remote state `σ`; every call made through them
is appended to a log, so that "which calls were issued, in which order and
with which arguments" is an ordinary statement about a list.
-/

namespace Cli

/-! ## Errors and warnings -/

/-- Go `error` values that occur in the embedded code.  `external` stands for
any error value produced by a collaborator (transport or server errors, the
errors of other actors); a nil error is `none : Option GoError`. -/
inductive GoError where
  | ApplicationNotFoundError (Name : String)
  | NoOrganizationTargetedError
  | MinimumAPIVersionNotMetError
  | external (msg : String)
  deriving DecidableEq, Repr

/-- Go `type Warnings []string`. -/
abbrev Warnings := List String

/-! ## `api/cloudcontroller/ccv2` declarations used by the actor -/

namespace ccv2

/-- Filter names of `ccv2.Query`; the constants are declared in package
`ccv2`, the actor only names them. -/
inductive QueryFilter where
  | NameFilter
  | SpaceGUIDFilter
  | OrganizationGUIDFilter
  | RouteGUIDFilter
  deriving DecidableEq, Repr

/-- Operators of `ccv2.Query`. -/
inductive QueryOperator where
  | EqualOperator
  | InOperator
  deriving DecidableEq, Repr

/-- Go `ccv2.Query{Filter, Operator, Value}`. -/
structure Query where
  Filter : QueryFilter
  Operator : QueryOperator
  Value : String
  deriving DecidableEq, Repr

/-- Go `ccv2.Application`, with the fields the actor reads or writes. -/
structure Application where
  GUID : String
  Name : String
  Buildpack : String
  DetectedBuildpack : String
  HealthCheckType : String
  deriving DecidableEq, Repr

end ccv2

/-! ## `actor/v2action/application.go` -/

/-- Go `type Application ccv2.Application`: same fields, so the conversions
`Application(x)` of the source are the identity. -/
abbrev Application := ccv2.Application

/-- Go `Application{}`: every field holds its zero value. -/
def Application.zero : Application :=
  { GUID := "", Name := "", Buildpack := "", DetectedBuildpack := "", HealthCheckType := "" }

/-- Go `(*Application).CalculatedBuildpack`. -/
def Application.CalculatedBuildpack (application : Application) : String :=
  if application.Buildpack != "" then
    application.Buildpack
  else
    application.DetectedBuildpack

/-- One call made on the cloud controller client, with its arguments. -/
inductive ClientCall where
  | GetApplications (queries : List ccv2.Query)
  | GetRouteApplications (routeGUID : String) (queries : List ccv2.Query)
  | UpdateApplication (app : ccv2.Application)
  deriving DecidableEq, Repr

/-- Whether a logged call is an `UpdateApplication`. -/
def ClientCall.isUpdateApplication : ClientCall → Bool
  | .UpdateApplication _ => true
  | _ => false

/-- Whether a logged call is a `GetApplications`. -/
def ClientCall.isGetApplications : ClientCall → Bool
  | .GetApplications _ => true
  | _ => false

/-- The `CloudControllerClient` interface of the actor, restricted to the
three methods `application.go` calls.  Each method returns its Go result
triple and the next remote state. -/
structure CloudControllerClient (σ : Type) where
  GetApplications :
    List ccv2.Query → σ → (List ccv2.Application × Warnings × Option GoError) × σ
  GetRouteApplications :
    String → List ccv2.Query → σ → (List ccv2.Application × Warnings × Option GoError) × σ
  UpdateApplication :
    ccv2.Application → σ → (ccv2.Application × Warnings × Option GoError) × σ

/-- Go `type Actor struct`, restricted to the client it holds. -/
structure Actor (σ : Type) where
  CloudControllerClient : CloudControllerClient σ

/-- What an actor operation runs against: the remote state and the log of
client calls issued so far (oldest first). -/
structure World (σ : Type) where
  remote : σ
  calls : List ClientCall

/-- The call `actor.CloudControllerClient.GetApplications(queries)`, logged. -/
def Actor.callGetApplications {σ : Type} (actor : Actor σ) (queries : List ccv2.Query)
    (w : World σ) : (List ccv2.Application × Warnings × Option GoError) × World σ :=
  let r := actor.CloudControllerClient.GetApplications queries w.remote
  (r.1, { remote := r.2, calls := w.calls ++ [ClientCall.GetApplications queries] })

/-- The call `actor.CloudControllerClient.GetRouteApplications(routeGUID, query)`,
logged. -/
def Actor.callGetRouteApplications {σ : Type} (actor : Actor σ) (routeGUID : String)
    (query : List ccv2.Query) (w : World σ) :
    (List ccv2.Application × Warnings × Option GoError) × World σ :=
  let r := actor.CloudControllerClient.GetRouteApplications routeGUID query w.remote
  (r.1, { remote := r.2, calls := w.calls ++ [ClientCall.GetRouteApplications routeGUID query] })

/-- The call `actor.CloudControllerClient.UpdateApplication(app)`, logged. -/
def Actor.callUpdateApplication {σ : Type} (actor : Actor σ) (app : ccv2.Application)
    (w : World σ) : (ccv2.Application × Warnings × Option GoError) × World σ :=
  let r := actor.CloudControllerClient.UpdateApplication app w.remote
  (r.1, { remote := r.2, calls := w.calls ++ [ClientCall.UpdateApplication app] })

/-- The query list built by `GetApplicationByNameAndSpace`. -/
def nameAndSpaceQueries (name spaceGUID : String) : List ccv2.Query :=
  [ { Filter := ccv2.QueryFilter.NameFilter,
      Operator := ccv2.QueryOperator.EqualOperator,
      Value := name },
    { Filter := ccv2.QueryFilter.SpaceGUIDFilter,
      Operator := ccv2.QueryOperator.EqualOperator,
      Value := spaceGUID } ]

/-- Go `Actor.GetApplicationByNameAndSpace`. -/
def Actor.GetApplicationByNameAndSpace {σ : Type} (actor : Actor σ)
    (name spaceGUID : String) (w : World σ) :
    (Application × Warnings × Option GoError) × World σ :=
  match actor.callGetApplications (nameAndSpaceQueries name spaceGUID) w with
  | ((app, warnings, err), w1) =>
    match err with
    | some e => ((Application.zero, warnings, some e), w1)
    | none =>
      match app with
      | [] => ((Application.zero, warnings, some (GoError.ApplicationNotFoundError name)), w1)
      | app0 :: _ => ((app0, warnings, none), w1)

/-- Go `Actor.GetRouteApplications`.  The returned slice is `none` for Go's
`nil` and `some l` for an allocated slice; the loop appends the client's
applications one by one to the empty slice `[]Application{}`. -/
def Actor.GetRouteApplications {σ : Type} (actor : Actor σ) (routeGUID : String)
    (query : List ccv2.Query) (w : World σ) :
    (Option (List Application) × Warnings × Option GoError) × World σ :=
  match actor.callGetRouteApplications routeGUID query w with
  | ((apps, warnings, err), w1) =>
    match err with
    | some e => ((none, warnings, some e), w1)
    | none =>
      let allApplications : List Application :=
        apps.foldl (fun acc app => acc ++ [app]) []
      ((some allApplications, warnings, none), w1)

/-- Go `Actor.SetApplicationHealthCheckTypeByNameAndSpace`. -/
def Actor.SetApplicationHealthCheckTypeByNameAndSpace {σ : Type} (actor : Actor σ)
    (name spaceGUID healthCheckType : String) (w : World σ) :
    (Warnings × Option GoError) × World σ :=
  let allWarnings : Warnings := []
  match actor.GetApplicationByNameAndSpace name spaceGUID w with
  | ((app, warnings, err), w1) =>
    let allWarnings := allWarnings ++ warnings
    match err with
    | some e => ((allWarnings, some e), w1)
    | none =>
      if app.HealthCheckType != healthCheckType then
        match actor.callUpdateApplication
            { GUID := app.GUID, Name := "", Buildpack := "", DetectedBuildpack := "",
              HealthCheckType := healthCheckType } w1 with
        | ((_, apiWarnings, err2), w2) =>
          let allWarnings := allWarnings ++ apiWarnings
          ((allWarnings, err2), w2)
      else
        ((allWarnings, none), w1)

/-! ## `command/v2/target_command.go` -/

/-- Go `v2action.Organization`, with the fields the command reads. -/
structure Organization where
  GUID : String
  Name : String
  deriving DecidableEq, Repr

/-- Go `v2action.Space`, with the fields the command reads. -/
structure Space where
  GUID : String
  Name : String
  AllowSSH : Bool
  deriving DecidableEq, Repr

namespace configv3

/-- Go `configv3.Organization`: the targeted organization of the session. -/
structure Organization where
  GUID : String
  Name : String
  deriving DecidableEq, Repr

/-- Go `configv3.Space`: the targeted space of the session. -/
structure Space where
  GUID : String
  Name : String
  AllowSSH : Bool
  deriving DecidableEq, Repr

/-- Go `configv3.User`. -/
structure User where
  Name : String
  deriving DecidableEq, Repr

end configv3

/-- Modelled from the spec: the `command.Config` collaborator, whose
implementation is outside the embedded files.  The session state holds at
most one targeted organization (identifier, name) and at most one targeted
space (identifier, name, capability flag); the remaining fields are the
answers of the read-only accessors `Execute` consults. -/
structure Config where
  targetedOrganization : Option configv3.Organization
  targetedSpace : Option configv3.Space
  experimental : Bool
  currentUser : configv3.User × Option GoError
  target : String
  apiVersion : String
  binaryName : String
  binaryVersion : String
  minCLIVersion : String
  deriving DecidableEq, Repr

/-- Session contract `hasOrganization()`. -/
def Config.HasTargetedOrganization (c : Config) : Bool :=
  c.targetedOrganization.isSome

/-- Session contract `hasSpace()`. -/
def Config.HasTargetedSpace (c : Config) : Bool :=
  c.targetedSpace.isSome

/-- Session contract `currentOrganization()`; the zero value when none is
targeted. -/
def Config.TargetedOrganization (c : Config) : configv3.Organization :=
  c.targetedOrganization.getD { GUID := "", Name := "" }

/-- Session contract `currentSpace()`; the zero value when none is targeted. -/
def Config.TargetedSpace (c : Config) : configv3.Space :=
  c.targetedSpace.getD { GUID := "", Name := "", AllowSSH := false }

/-- Session contract `setOrganization(id, name)`. -/
def Config.SetOrganizationInformation (c : Config) (guid name : String) : Config :=
  { c with targetedOrganization := some { GUID := guid, Name := name } }

/-- Session contract `setSpace(id, name, sshCapability)`. -/
def Config.SetSpaceInformation (c : Config) (guid name : String) (allowSSH : Bool) : Config :=
  { c with targetedSpace := some { GUID := guid, Name := name, AllowSSH := allowSSH } }

/-- Session contract `clearSpace()`. -/
def Config.UnsetSpaceInformation (c : Config) : Config :=
  { c with targetedSpace := none }

/-- Everything `Execute` does that is visible outside the command: actor
calls, session-state mutations and user-interface output, in program order. -/
inductive Event where
  | GetOrganizationByName (orgName : String)
  | GetOrganizationSpaces (orgGUID : String)
  | GetSpaceByOrganizationAndName (orgGUID spaceName : String)
  | SetOrganizationInformation (guid name : String)
  | SetSpaceInformation (guid name : String) (allowSSH : Bool)
  | UnsetSpaceInformation
  | DisplayWarnings (warnings : Warnings)
  | DisplayWarning (template : String) (vars : List (String × String))
  | DisplayText (template : String) (vars : List (String × String))
  | DisplayNewline
  | DisplayTable (tablePrefix : String) (table : List (List String)) (padding : Nat)
  | OldCmdMain
  deriving DecidableEq, Repr

/-- Whether an event is a call on the `TargetActor`. -/
def Event.isActorCall : Event → Bool
  | .GetOrganizationByName _ => true
  | .GetOrganizationSpaces _ => true
  | .GetSpaceByOrganizationAndName _ _ => true
  | _ => false

/-- Whether an event is one of the three session-state mutators. -/
def Event.isConfigMutation : Event → Bool
  | .SetOrganizationInformation _ _ => true
  | .SetSpaceInformation _ _ _ => true
  | .UnsetSpaceInformation => true
  | _ => false

/-- The warnings carried by a `DisplayWarnings` event, nothing for the others. -/
def Event.displayedWarnings : Event → Warnings
  | .DisplayWarnings ws => ws
  | _ => []

/-- Go `type TargetActor interface`. -/
structure TargetActor (σ : Type) where
  GetOrganizationByName :
    String → σ → (Organization × Warnings × Option GoError) × σ
  GetOrganizationSpaces :
    String → σ → (List Space × Warnings × Option GoError) × σ
  GetSpaceByOrganizationAndName :
    String → String → σ → (Space × Warnings × Option GoError) × σ

/-- The `command.SharedActor` collaborator. -/
structure SharedActor where
  CheckTarget : Config → Bool → Bool → Option GoError

/-- The `command.UI` collaborator: its display methods are logged as events,
`TranslateText` is its only method with a result. -/
structure UI where
  TranslateText : String → String

/-- Package-level collaborators of `target_command.go` declared in other
packages: `shared.HandleError` (wraps an error for display),
`command.MinimumAPIVersionCheck`, the constant `command.ExperimentalWarning`
and the legacy entry point `oldCmd.Main`, which acts on the session state. -/
structure Packages where
  HandleError : GoError → GoError
  MinimumAPIVersionCheck : String → String → Option GoError
  ExperimentalWarning : String
  oldCmdMain : Config → Config

/-- Go `type TargetCommand struct`. -/
structure TargetCommand (σ : Type) where
  Organization : String
  Space : String
  UI : UI
  SharedActor : SharedActor
  Actor : TargetActor σ

/-- What `Execute` runs against: the remote state behind the actor, the
command's `Config` and the trace of events so far (oldest first). -/
structure Session (σ : Type) where
  remote : σ
  Config : Config
  trace : List Event

/-- Appends one event to the trace. -/
def Session.emit {σ : Type} (s : Session σ) (e : Event) : Session σ :=
  { s with trace := s.trace ++ [e] }

/-- The call `cmd.UI.DisplayWarnings(warnings)`. -/
def Session.DisplayWarnings {σ : Type} (s : Session σ) (warnings : Warnings) : Session σ :=
  s.emit (Event.DisplayWarnings warnings)

/-- The call `cmd.Config.SetOrganizationInformation(guid, name)`. -/
def Session.SetOrganizationInformation {σ : Type} (s : Session σ) (guid name : String) :
    Session σ :=
  { s with Config := s.Config.SetOrganizationInformation guid name,
           trace := s.trace ++ [Event.SetOrganizationInformation guid name] }

/-- The call `cmd.Config.SetSpaceInformation(guid, name, allowSSH)`. -/
def Session.SetSpaceInformation {σ : Type} (s : Session σ) (guid name : String)
    (allowSSH : Bool) : Session σ :=
  { s with Config := s.Config.SetSpaceInformation guid name allowSSH,
           trace := s.trace ++ [Event.SetSpaceInformation guid name allowSSH] }

/-- The call `cmd.Config.UnsetSpaceInformation()`. -/
def Session.UnsetSpaceInformation {σ : Type} (s : Session σ) : Session σ :=
  { s with Config := s.Config.UnsetSpaceInformation,
           trace := s.trace ++ [Event.UnsetSpaceInformation] }

/-- The call `cmd.Actor.GetOrganizationByName(orgName)`, logged. -/
def TargetCommand.callGetOrganizationByName {σ : Type} (cmd : TargetCommand σ)
    (orgName : String) (s : Session σ) :
    (Cli.Organization × Warnings × Option GoError) × Session σ :=
  let r := cmd.Actor.GetOrganizationByName orgName s.remote
  (r.1, { s with remote := r.2, trace := s.trace ++ [Event.GetOrganizationByName orgName] })

/-- The call `cmd.Actor.GetOrganizationSpaces(orgGUID)`, logged. -/
def TargetCommand.callGetOrganizationSpaces {σ : Type} (cmd : TargetCommand σ)
    (orgGUID : String) (s : Session σ) :
    (List Cli.Space × Warnings × Option GoError) × Session σ :=
  let r := cmd.Actor.GetOrganizationSpaces orgGUID s.remote
  (r.1, { s with remote := r.2, trace := s.trace ++ [Event.GetOrganizationSpaces orgGUID] })

/-- The call `cmd.Actor.GetSpaceByOrganizationAndName(orgGUID, spaceName)`,
logged. -/
def TargetCommand.callGetSpaceByOrganizationAndName {σ : Type} (cmd : TargetCommand σ)
    (orgGUID spaceName : String) (s : Session σ) :
    (Cli.Space × Warnings × Option GoError) × Session σ :=
  let r := cmd.Actor.GetSpaceByOrganizationAndName orgGUID spaceName s.remote
  (r.1, { s with remote := r.2,
                 trace := s.trace ++ [Event.GetSpaceByOrganizationAndName orgGUID spaceName] })

/-- Go `TargetCommand.notifyCLIUpdateIfNeeded`. -/
def TargetCommand.notifyCLIUpdateIfNeeded {σ : Type} (_cmd : TargetCommand σ) (pk : Packages)
    (s : Session σ) : Session σ :=
  let err := pk.MinimumAPIVersionCheck s.Config.binaryVersion s.Config.minCLIVersion
  match err with
  | some GoError.MinimumAPIVersionNotMetError =>
    s.emit (Event.DisplayWarning
      "Cloud Foundry API version {{.APIVersion}} requires CLI version {{.MinCLIVersion}}. You are currently on version {{.BinaryVersion}}. To upgrade your CLI, please visit: https://github.com/cloudfoundry/cli#downloads"
      [("APIVersion", s.Config.apiVersion),
       ("MinCLIVersion", s.Config.minCLIVersion),
       ("BinaryVersion", s.Config.binaryVersion)])
  | _ => s

/-- Go `TargetCommand.setOrgAndSpace`. -/
def TargetCommand.setOrgAndSpace {σ : Type} (cmd : TargetCommand σ) (pk : Packages)
    (s : Session σ) : Option GoError × Session σ :=
  match cmd.callGetOrganizationByName cmd.Organization s with
  | ((org, warnings, err), s1) =>
    let s2 := s1.DisplayWarnings warnings
    match err with
    | some e => (some (pk.HandleError e), s2)
    | none =>
      match cmd.callGetSpaceByOrganizationAndName org.GUID cmd.Space s2 with
      | ((space, warnings2, err2), s3) =>
        let s4 := s3.DisplayWarnings warnings2
        match err2 with
        | some e => (some (pk.HandleError e), s4)
        | none =>
          let s5 := s4.SetOrganizationInformation org.GUID cmd.Organization
          let s6 := s5.SetSpaceInformation space.GUID space.Name space.AllowSSH
          (none, s6)

/-- Go `TargetCommand.setOrg`. -/
def TargetCommand.setOrg {σ : Type} (cmd : TargetCommand σ) (pk : Packages)
    (s : Session σ) : Option GoError × Session σ :=
  match cmd.callGetOrganizationByName cmd.Organization s with
  | ((org, warnings, err), s1) =>
    let s2 := s1.DisplayWarnings warnings
    match err with
    | some e => (some (pk.HandleError e), s2)
    | none =>
      let s3 := s2.SetOrganizationInformation org.GUID cmd.Organization
      let s4 := s3.UnsetSpaceInformation
      (none, s4)

/-- Go `TargetCommand.autoTargetSpace`. -/
def TargetCommand.autoTargetSpace {σ : Type} (cmd : TargetCommand σ) (pk : Packages)
    (orgGUID : String) (s : Session σ) : Option GoError × Session σ :=
  match cmd.callGetOrganizationSpaces orgGUID s with
  | ((spaces, warnings, err), s1) =>
    let s2 := s1.DisplayWarnings warnings
    match err with
    | some e => (some (pk.HandleError e), s2)
    | none =>
      match spaces with
      | [space] => (none, s2.SetSpaceInformation space.GUID space.Name space.AllowSSH)
      | _ => (none, s2)

/-- Go `TargetCommand.setSpace`. -/
def TargetCommand.setSpace {σ : Type} (cmd : TargetCommand σ) (pk : Packages)
    (s : Session σ) : Option GoError × Session σ :=
  if !s.Config.HasTargetedOrganization then
    (some GoError.NoOrganizationTargetedError, s)
  else
    match cmd.callGetSpaceByOrganizationAndName s.Config.TargetedOrganization.GUID cmd.Space s with
    | ((space, warnings, err), s1) =>
      let s2 := s1.DisplayWarnings warnings
      match err with
      | some e => (some (pk.HandleError e), s2)
      | none => (none, s2.SetSpaceInformation space.GUID space.Name space.AllowSSH)

/-- The rows `displayTargetTable` builds before handing them to the user
interface. -/
def TargetCommand.targetTable {σ : Type} (cmd : TargetCommand σ) (user : configv3.User)
    (c : Config) : List (List String) :=
  let table : List (List String) :=
    [ [cmd.UI.TranslateText "API endpoint:", c.target],
      [cmd.UI.TranslateText "API version:", c.apiVersion],
      [cmd.UI.TranslateText "User:", user.Name] ]
  let table :=
    if c.HasTargetedOrganization then
      table ++ [[cmd.UI.TranslateText "Org:", c.TargetedOrganization.Name]]
    else table
  let table :=
    if c.HasTargetedSpace then
      table ++ [[cmd.UI.TranslateText "Space:", c.TargetedSpace.Name]]
    else table
  table

/-- Go `TargetCommand.displayTargetTable`. -/
def TargetCommand.displayTargetTable {σ : Type} (cmd : TargetCommand σ)
    (user : configv3.User) (s : Session σ) : Session σ :=
  s.emit (Event.DisplayTable "" (cmd.targetTable user s.Config) 3)

/-- The `switch` of `Execute` (lines 69 to 89): the branch chosen by which of
the two names are non-empty, with the error the branch returns early with. -/
def TargetCommand.runBranch {σ : Type} (cmd : TargetCommand σ) (pk : Packages)
    (s : Session σ) : Option GoError × Session σ :=
  if cmd.Organization != "" && cmd.Space != "" then
    cmd.setOrgAndSpace pk s
  else if cmd.Organization != "" then
    match cmd.setOrg pk s with
    | (some e, s1) => (some e, s1)
    | (none, s1) => cmd.autoTargetSpace pk s1.Config.TargetedOrganization.GUID s1
  else if cmd.Space != "" then
    cmd.setSpace pk s
  else
    (none, s)

/-- The tail of `Execute` after the `switch` (lines 91 to 108): the target
table and the two advisories; it always returns nil. -/
def TargetCommand.report {σ : Type} (cmd : TargetCommand σ) (user : configv3.User)
    (s : Session σ) : Option GoError × Session σ :=
  let s1 := cmd.displayTargetTable user s
  if !s1.Config.HasTargetedOrganization then
    (none, s1.emit (Event.DisplayText "No org or space targeted, use '{{.CFTargetCommand}}'"
      [("CFTargetCommand", s1.Config.binaryName ++ " target -o ORG -s SPACE")]))
  else if !s1.Config.HasTargetedSpace then
    (none, s1.emit (Event.DisplayText "No space targeted, use '{{.CFTargetCommand}}'"
      [("CFTargetCommand", s1.Config.binaryName ++ " target -s SPACE")]))
  else
    (none, s1)

/-- Go `TargetCommand.Execute`. -/
def TargetCommand.Execute {σ : Type} (cmd : TargetCommand σ) (pk : Packages)
    (_args : List String) (s : Session σ) : Option GoError × Session σ :=
  if s.Config.experimental == false then
    (none, { s with Config := pk.oldCmdMain s.Config, trace := s.trace ++ [Event.OldCmdMain] })
  else
    let s1 := s.emit (Event.DisplayText pk.ExperimentalWarning [])
    let s2 := s1.emit Event.DisplayNewline
    let s3 := cmd.notifyCLIUpdateIfNeeded pk s2
    match cmd.SharedActor.CheckTarget s3.Config false false with
    | some e => (some (pk.HandleError e), s3)
    | none =>
      match s3.Config.currentUser with
      | (_, some e) => (some (pk.HandleError e), s3)
      | (user, none) =>
        match cmd.runBranch pk s3 with
        | (some e, s4) => (some e, s4)
        | (none, s4) => cmd.report user s4

/-- The warnings shown to the user by a trace, in order of display. -/
def displayedWarnings (trace : List Event) : Warnings :=
  (trace.map Event.displayedWarnings).flatten

/-- The conditions under which `Execute` reaches its `switch`: the
experimental gate is open, the target check passes and the current user is
read without error. -/
def TargetCommand.reachesSwitch {σ : Type} (cmd : TargetCommand σ) (s : Session σ) : Prop :=
  s.Config.experimental = true ∧
  cmd.SharedActor.CheckTarget s.Config false false = none ∧
  s.Config.currentUser.2 = none

/-! ## Fakes for concrete runs

Fixed-answer collaborators in the manner of the repository's test fakes
(`FakeCloudControllerClient.GetApplicationsReturns(...)`). -/

/-- A cloud controller client over a trivial remote state that answers every
call with the configured triple. -/
def fakeCloudControllerClient
    (getApplicationsReturns : List ccv2.Application × Warnings × Option GoError)
    (getRouteApplicationsReturns : List ccv2.Application × Warnings × Option GoError)
    (updateApplicationReturns : ccv2.Application × Warnings × Option GoError) :
    CloudControllerClient Unit where
  GetApplications := fun _ u => (getApplicationsReturns, u)
  GetRouteApplications := fun _ _ u => (getRouteApplicationsReturns, u)
  UpdateApplication := fun _ u => (updateApplicationReturns, u)

/-- An application named `my-app` with health-check type `port`. -/
def appPort : ccv2.Application :=
  { GUID := "app-1-guid", Name := "my-app", Buildpack := "", DetectedBuildpack := "ruby",
    HealthCheckType := "port" }

/-- A second application carrying the same name. -/
def appTwin : ccv2.Application :=
  { GUID := "app-2-guid", Name := "my-app", Buildpack := "go", DetectedBuildpack := "",
    HealthCheckType := "http" }

/-- An actor whose query finds exactly `appPort` and whose update succeeds. -/
def actorOne : Actor Unit :=
  { CloudControllerClient :=
      fakeCloudControllerClient ([appPort], ["get-warning"], none) ([], [], none)
        (Application.zero, ["update-warning"], none) }

/-- An actor whose query finds two applications of the requested name. -/
def actorTwo : Actor Unit :=
  { CloudControllerClient :=
      fakeCloudControllerClient ([appPort, appTwin], ["get-warning"], none) ([], [], none)
        (Application.zero, ["update-warning"], none) }

/-- An actor whose query finds nothing. -/
def actorNone : Actor Unit :=
  { CloudControllerClient :=
      fakeCloudControllerClient ([], ["get-warning"], none) ([], [], none)
        (Application.zero, ["update-warning"], none) }

/-- An actor whose query fails with a transport error. -/
def actorDown : Actor Unit :=
  { CloudControllerClient :=
      fakeCloudControllerClient ([], ["get-warning"], some (GoError.external "cc-get-apps-error"))
        ([], [], none) (Application.zero, ["update-warning"], none) }

/-- An actor whose query finds `appPort` and whose update fails. -/
def actorUpdateFails : Actor Unit :=
  { CloudControllerClient :=
      fakeCloudControllerClient ([appPort], ["get-warning"], none) ([], [], none)
        (Application.zero, ["update-warning"], some (GoError.external "cc-update-error")) }

/-- The world before any call. -/
def world0 : World Unit := { remote := (), calls := [] }

/-- A target actor over a trivial remote state that answers every call with
the configured triple. -/
def fakeTargetActor
    (getOrganizationByNameReturns : Organization × Warnings × Option GoError)
    (getOrganizationSpacesReturns : List Space × Warnings × Option GoError)
    (getSpaceByOrganizationAndNameReturns : Space × Warnings × Option GoError) :
    TargetActor Unit where
  GetOrganizationByName := fun _ u => (getOrganizationByNameReturns, u)
  GetOrganizationSpaces := fun _ u => (getOrganizationSpacesReturns, u)
  GetSpaceByOrganizationAndName := fun _ _ u => (getSpaceByOrganizationAndNameReturns, u)

/-- A session configuration in experimental mode that targets `old-org` and
`old-space`. -/
def configTargeted : Config :=
  { targetedOrganization := some { GUID := "old-org-guid", Name := "old-org" },
    targetedSpace := some { GUID := "old-space-guid", Name := "old-space", AllowSSH := true },
    experimental := true,
    currentUser := ({ Name := "some-user" }, none),
    target := "api.example.com",
    apiVersion := "2.59.0",
    binaryName := "faceman",
    binaryVersion := "6.22.0",
    minCLIVersion := "6.0.0" }

/-- The same configuration with nothing targeted. -/
def configUntargeted : Config :=
  { configTargeted with targetedOrganization := none, targetedSpace := none }

/-- Package collaborators for concrete runs: `HandleError` returns the error
it is given, the version check passes, the legacy entry point is inert. -/
def packages0 : Packages :=
  { HandleError := fun e => e,
    MinimumAPIVersionCheck := fun _ _ => none,
    ExperimentalWarning := "This command is in EXPERIMENTAL stage and may change without notice",
    oldCmdMain := fun c => c }

/-- A target command with the given names over the given actor; the target
check passes. -/
def targetCommand (organization space : String) (actor : TargetActor Unit) :
    TargetCommand Unit :=
  { Organization := organization,
    Space := space,
    UI := { TranslateText := fun t => t },
    SharedActor := { CheckTarget := fun _ _ _ => none },
    Actor := actor }

/-- The organization the fakes resolve. -/
def someOrg : Organization := { GUID := "some-org-guid", Name := "some-org" }

/-- The space the fakes resolve. -/
def someSpace : Space := { GUID := "some-space-guid", Name := "some-space", AllowSSH := true }

/-- Another space of the same organization. -/
def otherSpace : Space := { GUID := "other-space-guid", Name := "other-space", AllowSSH := false }

/-- A session over the given configuration before any event. -/
def session0 (c : Config) : Session Unit := { remote := (), Config := c, trace := [] }

/-- The events a run added to the trace it started from. -/
def addedEvents (before after : List Event) : List Event :=
  after.drop before.length


/-- A target actor whose organization lookup succeeds and whose space lookup
fails. -/
def targetActorSpaceFails : TargetActor Unit :=
  fakeTargetActor (someOrg, ["org-warning"], none) ([], [], none)
    (someSpace, ["space-warning"], some (GoError.external "space-not-found"))

/-- A target actor whose organization holds exactly one space. -/
def targetActorOneSpace : TargetActor Unit :=
  fakeTargetActor (someOrg, ["org-warning"], none) ([someSpace], ["spaces-warning"], none)
    (someSpace, ["space-warning"], none)

/-- A target actor whose organization holds two spaces. -/
def targetActorTwoSpaces : TargetActor Unit :=
  fakeTargetActor (someOrg, ["org-warning"], none)
    ([someSpace, otherSpace], ["spaces-warning"], none) (someSpace, ["space-warning"], none)

/-- The answers the actor gave to the actor calls recorded in a list of
events, in call order: every recorded call is put to the actor in the remote
state the earlier calls left, and the warnings it returns are concatenated.
The second component is the remote state after the last call. -/
def returnedWarnings {σ : Type} (actor : TargetActor σ) : List Event → σ → Warnings × σ
  | [], st => ([], st)
  | Event.GetOrganizationByName orgName :: rest, st =>
    let r := actor.GetOrganizationByName orgName st
    let k := returnedWarnings actor rest r.2
    (r.1.2.1 ++ k.1, k.2)
  | Event.GetOrganizationSpaces orgGUID :: rest, st =>
    let r := actor.GetOrganizationSpaces orgGUID st
    let k := returnedWarnings actor rest r.2
    (r.1.2.1 ++ k.1, k.2)
  | Event.GetSpaceByOrganizationAndName orgGUID spaceName :: rest, st =>
    let r := actor.GetSpaceByOrganizationAndName orgGUID spaceName st
    let k := returnedWarnings actor rest r.2
    (r.1.2.1 ++ k.1, k.2)
  | _ :: rest, st => returnedWarnings actor rest st

/-- A remote that stores one application: every query returns the stored
application, an update stores the health-check type it is given and returns
the stored application. -/
def storeClient : CloudControllerClient ccv2.Application where
  GetApplications := fun _ stored => (([stored], ["get-warning"], none), stored)
  GetRouteApplications := fun _ _ stored => (([stored], [], none), stored)
  UpdateApplication := fun app stored =>
    (({ stored with HealthCheckType := app.HealthCheckType }, ["update-warning"], none),
      { stored with HealthCheckType := app.HealthCheckType })

/-- The actor over the one-application remote. -/
def storeActor : Actor ccv2.Application := { CloudControllerClient := storeClient }

/-- An actor whose route query fails with a transport error. -/
def actorRouteDown : Actor Unit :=
  { CloudControllerClient :=
      fakeCloudControllerClient ([], [], none)
        ([appPort], ["route-warning"], some (GoError.external "cc-get-route-apps-error"))
        (Application.zero, [], none) }

/-- An actor whose route query finds `appPort` and `appTwin`, in this order. -/
def actorRouteTwo : Actor Unit :=
  { CloudControllerClient :=
      fakeCloudControllerClient ([], [], none) ([appPort, appTwin], ["route-warning"], none)
        (Application.zero, [], none) }

/-- A target actor whose organization lookup succeeds and whose space listing
fails. -/
def targetActorListingFails : TargetActor Unit :=
  fakeTargetActor (someOrg, ["org-warning"], none)
    ([], ["spaces-warning"], some (GoError.external "cc-get-spaces-error"))
    (someSpace, ["space-warning"], none)

/-- A target actor whose organization lookup fails. -/
def targetActorOrgFails : TargetActor Unit :=
  fakeTargetActor (someOrg, ["org-warning"], some (GoError.external "org-not-found"))
    ([someSpace], ["spaces-warning"], none) (someSpace, ["space-warning"], none)

/-! ## Resolution of an application by name and space -/

/-- The query `GetApplicationByNameAndSpace` issues, and the world it leaves,
do not depend on the answer: one `GetApplications` call with the two equality
filters is appended to the log. -/
theorem GetApplicationByNameAndSpace_world {σ : Type} (actor : Actor σ)
    (name spaceGUID : String) (w : World σ) :
    (actor.GetApplicationByNameAndSpace name spaceGUID w).2 =
      { remote :=
          (actor.CloudControllerClient.GetApplications
            (nameAndSpaceQueries name spaceGUID) w.remote).2,
        calls := w.calls ++ [ClientCall.GetApplications (nameAndSpaceQueries name spaceGUID)] } := by
  unfold Actor.GetApplicationByNameAndSpace Actor.callGetApplications
  rcases h : actor.CloudControllerClient.GetApplications
      (nameAndSpaceQueries name spaceGUID) w.remote with ⟨⟨app, warnings, err⟩, st⟩
  cases err with
  | some e => rfl
  | none =>
    cases app with
    | nil => rfl
    | cons a rest => rfl

/-- Whatever the size of a successful non-empty result set, the first
application is returned with a nil error. -/
theorem GetApplicationByNameAndSpace_head {σ : Type} (actor : Actor σ)
    (name spaceGUID : String) (w : World σ) (a : ccv2.Application)
    (rest : List ccv2.Application) (ws : Warnings)
    (h : (actor.CloudControllerClient.GetApplications
            (nameAndSpaceQueries name spaceGUID) w.remote).1 = (a :: rest, ws, none)) :
    (actor.GetApplicationByNameAndSpace name spaceGUID w).1 = (a, ws, none) := by
  unfold Actor.GetApplicationByNameAndSpace Actor.callGetApplications
  simp only [h]

/-- Claim C1, evaluated on the code: when the filtered query succeeds with the
two applications `appPort` and `appTwin`, `GetApplicationByNameAndSpace`
returns the first of them with a nil error; no error that reports multiple
matches is raised. -/
theorem GetApplicationByNameAndSpace_two_matches :
    (actorTwo.CloudControllerClient.GetApplications
        (nameAndSpaceQueries "my-app" "space-1-guid") world0.remote).1
      = ([appPort, appTwin], ["get-warning"], none) ∧
    (actorTwo.GetApplicationByNameAndSpace "my-app" "space-1-guid" world0).1
      = (appPort, ["get-warning"], none) :=
  ⟨rfl, rfl⟩

/-- Claim C2: when the `GetApplications` query succeeds with an empty result
set and warnings `ws`, `GetApplicationByNameAndSpace` returns the zero-value
application, exactly `ws`, and the error `ApplicationNotFoundError` carrying
the requested name. -/
theorem GetApplicationByNameAndSpace_not_found {σ : Type} (actor : Actor σ)
    (name spaceGUID : String) (w : World σ) (ws : Warnings)
    (h : (actor.CloudControllerClient.GetApplications
            (nameAndSpaceQueries name spaceGUID) w.remote).1 = ([], ws, none)) :
    (actor.GetApplicationByNameAndSpace name spaceGUID w).1 =
      (Application.zero, ws, some (GoError.ApplicationNotFoundError name)) ∧
    Application.zero =
      { GUID := "", Name := "", Buildpack := "", DetectedBuildpack := "",
        HealthCheckType := "" } := by
  refine ⟨?_, rfl⟩
  unfold Actor.GetApplicationByNameAndSpace Actor.callGetApplications
  simp only [h]

/-- Witness of claim C2 on the actor whose query finds nothing. -/
theorem GetApplicationByNameAndSpace_not_found_witness :
    (actorNone.GetApplicationByNameAndSpace "my-app" "space-1-guid" world0).1 =
      (Application.zero, ["get-warning"], some (GoError.ApplicationNotFoundError "my-app")) ∧
    Application.zero =
      { GUID := "", Name := "", Buildpack := "", DetectedBuildpack := "",
        HealthCheckType := "" } :=
  GetApplicationByNameAndSpace_not_found actorNone "my-app" "space-1-guid" world0
    ["get-warning"] rfl

/-- Claim C3: when the `GetApplications` query succeeds with exactly one
application `a` and warnings `ws`, `GetApplicationByNameAndSpace` returns `a`
itself, `ws` and a nil error, and the only call it adds to the log is one
`GetApplications` whose filters are name = `name` and space GUID =
`spaceGUID`, both with the equality operator. -/
theorem GetApplicationByNameAndSpace_unique {σ : Type} (actor : Actor σ)
    (name spaceGUID : String) (w : World σ) (a : ccv2.Application) (ws : Warnings)
    (h : (actor.CloudControllerClient.GetApplications
            (nameAndSpaceQueries name spaceGUID) w.remote).1 = ([a], ws, none)) :
    (actor.GetApplicationByNameAndSpace name spaceGUID w).1 = (a, ws, none) ∧
    (actor.GetApplicationByNameAndSpace name spaceGUID w).2.calls =
      w.calls ++
        [ClientCall.GetApplications
          [ { Filter := ccv2.QueryFilter.NameFilter,
              Operator := ccv2.QueryOperator.EqualOperator, Value := name },
            { Filter := ccv2.QueryFilter.SpaceGUIDFilter,
              Operator := ccv2.QueryOperator.EqualOperator, Value := spaceGUID } ]] := by
  constructor
  · exact GetApplicationByNameAndSpace_head actor name spaceGUID w a [] ws h
  · rw [GetApplicationByNameAndSpace_world]
    rfl

/-- Witness of claim C3 on the actor whose query finds exactly `appPort`. -/
theorem GetApplicationByNameAndSpace_unique_witness :
    (actorOne.GetApplicationByNameAndSpace "my-app" "space-1-guid" world0).1
      = (appPort, ["get-warning"], none) ∧
    (actorOne.GetApplicationByNameAndSpace "my-app" "space-1-guid" world0).2.calls =
      world0.calls ++
        [ClientCall.GetApplications
          [ { Filter := ccv2.QueryFilter.NameFilter,
              Operator := ccv2.QueryOperator.EqualOperator, Value := "my-app" },
            { Filter := ccv2.QueryFilter.SpaceGUIDFilter,
              Operator := ccv2.QueryOperator.EqualOperator, Value := "space-1-guid" } ]] :=
  GetApplicationByNameAndSpace_unique actorOne "my-app" "space-1-guid" world0 appPort
    ["get-warning"] rfl

/-! ## Conditional update of the health-check type -/

/-- Claim C7: when resolution succeeds with `app` and `app.HealthCheckType`
differs from the desired type, the calls added to the log are exactly the one
`GetApplications` query of the resolution followed by one `UpdateApplication`
whose argument carries `app.GUID` and the desired type; so the invocation
holds one update call, one query, and the update is the last call. -/
theorem SetApplicationHealthCheckType_one_update {σ : Type} (actor : Actor σ)
    (name spaceGUID healthCheckType : String) (w : World σ)
    (app : Application) (ws : Warnings)
    (hres : (actor.GetApplicationByNameAndSpace name spaceGUID w).1 = (app, ws, none))
    (hne : app.HealthCheckType ≠ healthCheckType) :
    (actor.SetApplicationHealthCheckTypeByNameAndSpace name spaceGUID healthCheckType w).2.calls
      = w.calls ++ [ClientCall.GetApplications (nameAndSpaceQueries name spaceGUID),
          ClientCall.UpdateApplication
            { GUID := app.GUID, Name := "", Buildpack := "", DetectedBuildpack := "",
              HealthCheckType := healthCheckType }] ∧
    (((actor.SetApplicationHealthCheckTypeByNameAndSpace name spaceGUID healthCheckType
        w).2.calls.drop w.calls.length).filter ClientCall.isUpdateApplication).length = 1 ∧
    (((actor.SetApplicationHealthCheckTypeByNameAndSpace name spaceGUID healthCheckType
        w).2.calls.drop w.calls.length).filter ClientCall.isGetApplications).length = 1 := by
  have hworld := GetApplicationByNameAndSpace_world actor name spaceGUID w
  have hcalls :
      (actor.SetApplicationHealthCheckTypeByNameAndSpace name spaceGUID healthCheckType w).2.calls
        = w.calls ++ [ClientCall.GetApplications (nameAndSpaceQueries name spaceGUID),
            ClientCall.UpdateApplication
              { GUID := app.GUID, Name := "", Buildpack := "", DetectedBuildpack := "",
                HealthCheckType := healthCheckType }] := by
    unfold Actor.SetApplicationHealthCheckTypeByNameAndSpace
    rcases hr : actor.GetApplicationByNameAndSpace name spaceGUID w with ⟨⟨app1, ws1, err1⟩, w1⟩
    rw [hr] at hres hworld
    simp only [Prod.mk.injEq] at hres
    obtain ⟨rfl, rfl, rfl⟩ := hres
    simp only at hworld
    subst hworld
    simp [hne, Actor.callUpdateApplication]
  refine ⟨hcalls, ?_, ?_⟩
  · rw [hcalls]
    simp [ClientCall.isUpdateApplication]
  · rw [hcalls]
    simp [ClientCall.isGetApplications]

/-- Witness of claim C7: `appPort` has type `port`, the request is `http`. -/
theorem SetApplicationHealthCheckType_one_update_witness :
    (actorOne.SetApplicationHealthCheckTypeByNameAndSpace "my-app" "space-1-guid" "http"
        world0).2.calls
      = world0.calls ++ [ClientCall.GetApplications (nameAndSpaceQueries "my-app" "space-1-guid"),
          ClientCall.UpdateApplication
            { GUID := appPort.GUID, Name := "", Buildpack := "", DetectedBuildpack := "",
              HealthCheckType := "http" }] ∧
    (((actorOne.SetApplicationHealthCheckTypeByNameAndSpace "my-app" "space-1-guid" "http"
        world0).2.calls.drop world0.calls.length).filter
          ClientCall.isUpdateApplication).length = 1 ∧
    (((actorOne.SetApplicationHealthCheckTypeByNameAndSpace "my-app" "space-1-guid" "http"
        world0).2.calls.drop world0.calls.length).filter
          ClientCall.isGetApplications).length = 1 :=
  SetApplicationHealthCheckType_one_update actorOne "my-app" "space-1-guid" "http" world0
    appPort ["get-warning"] rfl (by decide)

/-- Claim C8: when resolution succeeds with `app` and `app.HealthCheckType`
already equals the desired type, no `UpdateApplication` call is issued (the
only call added to the log is the resolution's query) and the operation
returns a nil error with exactly the resolution's warnings. -/
theorem SetApplicationHealthCheckType_no_op {σ : Type} (actor : Actor σ)
    (name spaceGUID healthCheckType : String) (w : World σ)
    (app : Application) (ws : Warnings)
    (hres : (actor.GetApplicationByNameAndSpace name spaceGUID w).1 = (app, ws, none))
    (heq : app.HealthCheckType = healthCheckType) :
    (actor.SetApplicationHealthCheckTypeByNameAndSpace name spaceGUID healthCheckType w).1
      = (ws, none) ∧
    (actor.SetApplicationHealthCheckTypeByNameAndSpace name spaceGUID healthCheckType w).2.calls
      = w.calls ++ [ClientCall.GetApplications (nameAndSpaceQueries name spaceGUID)] ∧
    (((actor.SetApplicationHealthCheckTypeByNameAndSpace name spaceGUID healthCheckType
        w).2.calls.drop w.calls.length).filter ClientCall.isUpdateApplication).length = 0 := by
  have hworld := GetApplicationByNameAndSpace_world actor name spaceGUID w
  have hboth :
      actor.SetApplicationHealthCheckTypeByNameAndSpace name spaceGUID healthCheckType w
        = ((ws, none), (actor.GetApplicationByNameAndSpace name spaceGUID w).2) := by
    unfold Actor.SetApplicationHealthCheckTypeByNameAndSpace
    rcases hr : actor.GetApplicationByNameAndSpace name spaceGUID w with ⟨⟨app1, ws1, err1⟩, w1⟩
    rw [hr] at hres
    simp only [Prod.mk.injEq] at hres
    obtain ⟨rfl, rfl, rfl⟩ := hres
    simp [heq]
  rw [hboth, hworld]
  simp [ClientCall.isUpdateApplication]

/-- Witness of claim C8: `appPort` already has type `port`. -/
theorem SetApplicationHealthCheckType_no_op_witness :
    (actorOne.SetApplicationHealthCheckTypeByNameAndSpace "my-app" "space-1-guid" "port"
        world0).1 = (["get-warning"], none) ∧
    (actorOne.SetApplicationHealthCheckTypeByNameAndSpace "my-app" "space-1-guid" "port"
        world0).2.calls
      = world0.calls ++ [ClientCall.GetApplications (nameAndSpaceQueries "my-app" "space-1-guid")] ∧
    (((actorOne.SetApplicationHealthCheckTypeByNameAndSpace "my-app" "space-1-guid" "port"
        world0).2.calls.drop world0.calls.length).filter
          ClientCall.isUpdateApplication).length = 0 :=
  SetApplicationHealthCheckType_no_op actorOne "my-app" "space-1-guid" "port" world0
    appPort ["get-warning"] rfl rfl

/-- Claim C9: when `GetApplicationByNameAndSpace` fails with error `e` and
warnings `ws` (a client error or `ApplicationNotFoundError`), the operation
returns exactly `e` with exactly `ws`, and issues no `UpdateApplication`
call: the only call added to the log is the resolution's query. -/
theorem SetApplicationHealthCheckType_resolution_fails {σ : Type} (actor : Actor σ)
    (name spaceGUID healthCheckType : String) (w : World σ)
    (app : Application) (ws : Warnings) (e : GoError)
    (hres : (actor.GetApplicationByNameAndSpace name spaceGUID w).1 = (app, ws, some e)) :
    (actor.SetApplicationHealthCheckTypeByNameAndSpace name spaceGUID healthCheckType w).1
      = (ws, some e) ∧
    (actor.SetApplicationHealthCheckTypeByNameAndSpace name spaceGUID healthCheckType w).2.calls
      = w.calls ++ [ClientCall.GetApplications (nameAndSpaceQueries name spaceGUID)] ∧
    (((actor.SetApplicationHealthCheckTypeByNameAndSpace name spaceGUID healthCheckType
        w).2.calls.drop w.calls.length).filter ClientCall.isUpdateApplication).length = 0 := by
  have hworld := GetApplicationByNameAndSpace_world actor name spaceGUID w
  have hboth :
      actor.SetApplicationHealthCheckTypeByNameAndSpace name spaceGUID healthCheckType w
        = ((ws, some e), (actor.GetApplicationByNameAndSpace name spaceGUID w).2) := by
    unfold Actor.SetApplicationHealthCheckTypeByNameAndSpace
    rcases hr : actor.GetApplicationByNameAndSpace name spaceGUID w with ⟨⟨app1, ws1, err1⟩, w1⟩
    rw [hr] at hres
    simp only [Prod.mk.injEq] at hres
    obtain ⟨rfl, rfl, rfl⟩ := hres
    simp
  rw [hboth, hworld]
  simp [ClientCall.isUpdateApplication]

/-- Witness of claim C9: the query fails with a transport error. -/
theorem SetApplicationHealthCheckType_resolution_fails_witness :
    (actorDown.SetApplicationHealthCheckTypeByNameAndSpace "my-app" "space-1-guid" "http"
        world0).1 = (["get-warning"], some (GoError.external "cc-get-apps-error")) ∧
    (actorDown.SetApplicationHealthCheckTypeByNameAndSpace "my-app" "space-1-guid" "http"
        world0).2.calls
      = world0.calls ++ [ClientCall.GetApplications (nameAndSpaceQueries "my-app" "space-1-guid")] ∧
    (((actorDown.SetApplicationHealthCheckTypeByNameAndSpace "my-app" "space-1-guid" "http"
        world0).2.calls.drop world0.calls.length).filter
          ClientCall.isUpdateApplication).length = 0 :=
  SetApplicationHealthCheckType_resolution_fails actorDown "my-app" "space-1-guid" "http"
    world0 Application.zero ["get-warning"] (GoError.external "cc-get-apps-error") rfl

/-- Claim C10: when the update is issued (resolution succeeded with `app` and
warnings `ws`, and the types differ) and the `UpdateApplication` call answers
with warnings `uws` and error value `uerr` (nil or not), the operation returns
`ws ++ uws`, the resolution's warnings followed by the update's, together
with exactly `uerr`. -/
theorem SetApplicationHealthCheckType_warnings {σ : Type} (actor : Actor σ)
    (name spaceGUID healthCheckType : String) (w : World σ)
    (app updated : Application) (ws uws : Warnings) (uerr : Option GoError)
    (hres : (actor.GetApplicationByNameAndSpace name spaceGUID w).1 = (app, ws, none))
    (hne : app.HealthCheckType ≠ healthCheckType)
    (hupd : (actor.CloudControllerClient.UpdateApplication
              { GUID := app.GUID, Name := "", Buildpack := "", DetectedBuildpack := "",
                HealthCheckType := healthCheckType }
              (actor.GetApplicationByNameAndSpace name spaceGUID w).2.remote).1
            = (updated, uws, uerr)) :
    (actor.SetApplicationHealthCheckTypeByNameAndSpace name spaceGUID healthCheckType w).1
      = (ws ++ uws, uerr) := by
  unfold Actor.SetApplicationHealthCheckTypeByNameAndSpace
  rcases hr : actor.GetApplicationByNameAndSpace name spaceGUID w with ⟨⟨app1, ws1, err1⟩, w1⟩
  rw [hr] at hres hupd
  simp only [Prod.mk.injEq] at hres
  obtain ⟨rfl, rfl, rfl⟩ := hres
  simp only at hupd
  simp [hne, Actor.callUpdateApplication, hupd]

/-- Witness of claim C10 on the failing update: both warnings are returned,
in call order, with the update's error. -/
theorem SetApplicationHealthCheckType_warnings_witness :
    (actorUpdateFails.SetApplicationHealthCheckTypeByNameAndSpace "my-app" "space-1-guid" "http"
        world0).1
      = (["get-warning"] ++ ["update-warning"], some (GoError.external "cc-update-error")) :=
  SetApplicationHealthCheckType_warnings actorUpdateFails "my-app" "space-1-guid" "http" world0
    appPort Application.zero ["get-warning"] ["update-warning"]
    (some (GoError.external "cc-update-error")) rfl (by decide) rfl

/-! ## The target command: frame lemmas -/

/-- The update notice only writes to the user interface: it appends display
events that are neither actor calls nor session mutations nor warning
lists. -/
theorem notifyCLIUpdateIfNeeded_frame {σ : Type} (cmd : TargetCommand σ) (pk : Packages)
    (s : Session σ) :
    ∃ l : List Event,
      cmd.notifyCLIUpdateIfNeeded pk s = { s with trace := s.trace ++ l } ∧
      l.filter Event.isConfigMutation = [] ∧ l.filter Event.isActorCall = [] ∧
      displayedWarnings l = [] := by
  unfold TargetCommand.notifyCLIUpdateIfNeeded
  cases h : pk.MinimumAPIVersionCheck s.Config.binaryVersion s.Config.minCLIVersion with
  | none => exact ⟨[], by simp, rfl, rfl, rfl⟩
  | some e =>
    cases e with
    | MinimumAPIVersionNotMetError =>
      exact ⟨[_], rfl, rfl, rfl, rfl⟩
    | ApplicationNotFoundError n => exact ⟨[], by simp, rfl, rfl, rfl⟩
    | NoOrganizationTargetedError => exact ⟨[], by simp, rfl, rfl, rfl⟩
    | external m => exact ⟨[], by simp, rfl, rfl, rfl⟩

/-- The report after the `switch` returns nil and only writes to the user
interface. -/
theorem report_frame {σ : Type} (cmd : TargetCommand σ) (user : configv3.User)
    (s : Session σ) :
    ∃ l : List Event,
      cmd.report user s = (none, { s with trace := s.trace ++ l }) ∧
      l.filter Event.isConfigMutation = [] ∧ l.filter Event.isActorCall = [] ∧
      displayedWarnings l = [] := by
  unfold TargetCommand.report TargetCommand.displayTargetTable Session.emit
  by_cases h1 : s.Config.HasTargetedOrganization = true
  · by_cases h2 : s.Config.HasTargetedSpace = true
    · refine ⟨[Event.DisplayTable "" (cmd.targetTable user s.Config) 3], ?_, rfl, rfl, rfl⟩
      simp [h1, h2]
    · refine ⟨[Event.DisplayTable "" (cmd.targetTable user s.Config) 3,
        Event.DisplayText "No space targeted, use '{{.CFTargetCommand}}'"
          [("CFTargetCommand", s.Config.binaryName ++ " target -s SPACE")]], ?_, rfl, rfl, rfl⟩
      simp [h1, h2]
  · refine ⟨[Event.DisplayTable "" (cmd.targetTable user s.Config) 3,
      Event.DisplayText "No org or space targeted, use '{{.CFTargetCommand}}'"
        [("CFTargetCommand", s.Config.binaryName ++ " target -o ORG -s SPACE")]], ?_, rfl, rfl, rfl⟩
    simp [h1]

/-- When the `switch` is reached, `Execute` is the preamble's display events
followed by the chosen branch and, if the branch returns nil, the report. -/
theorem Execute_of_reachesSwitch {σ : Type} (cmd : TargetCommand σ) (pk : Packages)
    (args : List String) (s : Session σ) (hreach : cmd.reachesSwitch s) :
    ∃ pre : List Event,
      pre.filter Event.isConfigMutation = [] ∧ pre.filter Event.isActorCall = [] ∧
      displayedWarnings pre = [] ∧
      cmd.Execute pk args s =
        match cmd.runBranch pk { s with trace := s.trace ++ pre } with
        | (some e, s4) => (some e, s4)
        | (none, s4) => cmd.report s.Config.currentUser.1 s4 := by
  obtain ⟨hexp, hcheck, huser⟩ := hreach
  obtain ⟨l, hl, hm, ha, hw⟩ := notifyCLIUpdateIfNeeded_frame cmd pk
    ((s.emit (Event.DisplayText pk.ExperimentalWarning [])).emit Event.DisplayNewline)
  refine ⟨[Event.DisplayText pk.ExperimentalWarning [], Event.DisplayNewline] ++ l, ?_, ?_, ?_, ?_⟩
  · simp [hm, Event.isConfigMutation]
  · simp [ha, Event.isActorCall]
  · simp only [displayedWarnings] at hw ⊢
    simp [hw, Event.displayedWarnings]
  · unfold TargetCommand.Execute
    simp only [hexp, hl]
    simp only [Session.emit, List.append_assoc, List.singleton_append, List.cons_append,
      List.nil_append]
    rcases hu : s.Config.currentUser with ⟨user, uerr⟩
    rw [hu] at huser
    simp only at huser
    subst huser
    simp [hcheck, hu]

/-- The events appended to a trace are recovered by `addedEvents`. -/
theorem addedEvents_append (before l : List Event) : addedEvents before (before ++ l) = l := by
  simp [addedEvents]

/-! ## The target command: branches -/

/-- Claim C4 (branch 1 atomicity): in a run of `Execute` that reaches the
`switch` with both names given, if `GetOrganizationByName` succeeds with `org`
and `GetSpaceByOrganizationAndName org.GUID cmd.Space` then fails with `e`,
`Execute` returns a non-nil error (the display form of `e`), the
configuration, and with it the targeted organization and space, is the one
before the call, and none of `SetOrganizationInformation`,
`SetSpaceInformation`, `UnsetSpaceInformation` occurs among the events of the
run. -/
theorem Execute_both_space_fails_atomic {σ : Type} (cmd : TargetCommand σ) (pk : Packages)
    (args : List String) (s : Session σ) (hreach : cmd.reachesSwitch s)
    (horg : cmd.Organization ≠ "") (hspace : cmd.Space ≠ "")
    (org : Organization) (ws1 : Warnings)
    (hO : (cmd.Actor.GetOrganizationByName cmd.Organization s.remote).1 = (org, ws1, none))
    (space : Space) (ws2 : Warnings) (e : GoError)
    (hS : (cmd.Actor.GetSpaceByOrganizationAndName org.GUID cmd.Space
            (cmd.Actor.GetOrganizationByName cmd.Organization s.remote).2).1
          = (space, ws2, some e)) :
    (cmd.Execute pk args s).1 = some (pk.HandleError e) ∧
    (cmd.Execute pk args s).1 ≠ none ∧
    (cmd.Execute pk args s).2.Config = s.Config ∧
    (cmd.Execute pk args s).2.Config.targetedOrganization = s.Config.targetedOrganization ∧
    (cmd.Execute pk args s).2.Config.targetedSpace = s.Config.targetedSpace ∧
    (addedEvents s.trace (cmd.Execute pk args s).2.trace).filter Event.isConfigMutation = [] := by
  obtain ⟨pre, hm, _, _, hE⟩ := Execute_of_reachesSwitch cmd pk args s hreach
  have hb : cmd.runBranch pk { s with trace := s.trace ++ pre } =
      (some (pk.HandleError e),
        { remote := (cmd.Actor.GetSpaceByOrganizationAndName org.GUID cmd.Space
            (cmd.Actor.GetOrganizationByName cmd.Organization s.remote).2).2,
          Config := s.Config,
          trace := s.trace ++ (pre ++
            [Event.GetOrganizationByName cmd.Organization, Event.DisplayWarnings ws1,
             Event.GetSpaceByOrganizationAndName org.GUID cmd.Space,
             Event.DisplayWarnings ws2]) }) := by
    unfold TargetCommand.runBranch TargetCommand.setOrgAndSpace
      TargetCommand.callGetOrganizationByName TargetCommand.callGetSpaceByOrganizationAndName
      Session.DisplayWarnings Session.emit
    simp [horg, hspace, hO, hS]
  rw [hE, hb]
  simp only [addedEvents_append]
  simp [hm, Event.isConfigMutation]

/-- Claim C5 (branch 2 auto-target): in a run of `Execute` that reaches the
`switch` with only an organization name given, if the organization resolves
to `org` and `GetOrganizationSpaces` succeeds with the list `L`, `Execute`
returns nil; afterwards the targeted space is the single element of `L` when
`L` has exactly one element, and no space is targeted when `L` is empty or
has two or more elements, whatever was targeted before. -/
theorem Execute_org_only_autoTarget {σ : Type} (cmd : TargetCommand σ) (pk : Packages)
    (args : List String) (s : Session σ) (hreach : cmd.reachesSwitch s)
    (horg : cmd.Organization ≠ "") (hspace : cmd.Space = "")
    (org : Organization) (ws1 : Warnings)
    (hO : (cmd.Actor.GetOrganizationByName cmd.Organization s.remote).1 = (org, ws1, none))
    (L : List Space) (ws2 : Warnings)
    (hL : (cmd.Actor.GetOrganizationSpaces org.GUID
            (cmd.Actor.GetOrganizationByName cmd.Organization s.remote).2).1
          = (L, ws2, none)) :
    (cmd.Execute pk args s).1 = none ∧
    (∀ sp : Space, L = [sp] →
      (cmd.Execute pk args s).2.Config.targetedSpace
        = some { GUID := sp.GUID, Name := sp.Name, AllowSSH := sp.AllowSSH } ∧
      (cmd.Execute pk args s).2.Config.HasTargetedSpace = true ∧
      (cmd.Execute pk args s).2.Config.TargetedSpace
        = { GUID := sp.GUID, Name := sp.Name, AllowSSH := sp.AllowSSH }) ∧
    (L.length ≠ 1 →
      (cmd.Execute pk args s).2.Config.targetedSpace = none ∧
      (cmd.Execute pk args s).2.Config.HasTargetedSpace = false) := by
  obtain ⟨pre, _, _, _, hE⟩ := Execute_of_reachesSwitch cmd pk args s hreach
  have hb : ∃ s4 : Session σ, cmd.runBranch pk { s with trace := s.trace ++ pre } = (none, s4) ∧
      (∀ sp : Space, L = [sp] → s4.Config.targetedSpace
          = some { GUID := sp.GUID, Name := sp.Name, AllowSSH := sp.AllowSSH }) ∧
      (L.length ≠ 1 → s4.Config.targetedSpace = none) := by
    unfold TargetCommand.runBranch TargetCommand.setOrg TargetCommand.autoTargetSpace
      TargetCommand.callGetOrganizationByName TargetCommand.callGetOrganizationSpaces
    simp only [hspace, horg, hO, bne_self_eq_false, Bool.and_false, bne_iff_ne, ne_eq,
      not_false_eq_true, decide_True, if_true, Bool.false_eq_true, if_false,
      Session.DisplayWarnings, Session.emit, Session.SetOrganizationInformation,
      Session.UnsetSpaceInformation, Config.SetOrganizationInformation,
      Config.UnsetSpaceInformation, Config.TargetedOrganization, Option.getD_some, hL,
      Session.SetSpaceInformation, Config.SetSpaceInformation]
    match L with
    | [] => exact ⟨_, rfl, by simp, by simp⟩
    | [sp0] => exact ⟨_, rfl, by simp, by simp⟩
    | _ :: _ :: _ => exact ⟨_, rfl, by simp, by simp⟩
  obtain ⟨s4, hb1, hone, hmany⟩ := hb
  obtain ⟨l, hl, _, _, _⟩ := report_frame cmd s.Config.currentUser.1 s4
  rw [hE, hb1]
  simp only [hl]
  refine ⟨trivial, ?_, ?_⟩
  · intro sp hsp
    simp [hone sp hsp, Config.HasTargetedSpace, Config.TargetedSpace]
  · intro hlen
    simp [hmany hlen, Config.HasTargetedSpace]

/-- Claim C6 (branch 3 precondition): in a run of `Execute` that reaches the
`switch` with only a space name given while no organization is targeted,
`Execute` fails with `NoOrganizationTargetedError`, no actor call occurs among
the events of the run, the remote state behind the actor is untouched, and
the configuration is the one before the call. -/
theorem Execute_space_only_no_org {σ : Type} (cmd : TargetCommand σ) (pk : Packages)
    (args : List String) (s : Session σ) (hreach : cmd.reachesSwitch s)
    (horg : cmd.Organization = "") (hspace : cmd.Space ≠ "")
    (hnone : s.Config.HasTargetedOrganization = false) :
    (cmd.Execute pk args s).1 = some GoError.NoOrganizationTargetedError ∧
    (addedEvents s.trace (cmd.Execute pk args s).2.trace).filter Event.isActorCall = [] ∧
    (cmd.Execute pk args s).2.remote = s.remote ∧
    (cmd.Execute pk args s).2.Config = s.Config := by
  obtain ⟨pre, _, ha, _, hE⟩ := Execute_of_reachesSwitch cmd pk args s hreach
  have hb : cmd.runBranch pk { s with trace := s.trace ++ pre } =
      (some GoError.NoOrganizationTargetedError, { s with trace := s.trace ++ pre }) := by
    unfold TargetCommand.runBranch TargetCommand.setSpace
    simp [horg, hspace, hnone]
  rw [hE, hb]
  simp only [addedEvents_append]
  simp [ha]

/-- Witness of claim C4: `old-org` and `old-space` are targeted, the
organization lookup succeeds and the space lookup fails. -/
theorem Execute_both_space_fails_atomic_witness :
    ((targetCommand "some-org" "some-space" targetActorSpaceFails).Execute packages0 []
        (session0 configTargeted)).1
      = some (packages0.HandleError (GoError.external "space-not-found")) ∧
    ((targetCommand "some-org" "some-space" targetActorSpaceFails).Execute packages0 []
        (session0 configTargeted)).1 ≠ none ∧
    ((targetCommand "some-org" "some-space" targetActorSpaceFails).Execute packages0 []
        (session0 configTargeted)).2.Config = (session0 configTargeted).Config ∧
    ((targetCommand "some-org" "some-space" targetActorSpaceFails).Execute packages0 []
        (session0 configTargeted)).2.Config.targetedOrganization
      = (session0 configTargeted).Config.targetedOrganization ∧
    ((targetCommand "some-org" "some-space" targetActorSpaceFails).Execute packages0 []
        (session0 configTargeted)).2.Config.targetedSpace
      = (session0 configTargeted).Config.targetedSpace ∧
    (addedEvents (session0 configTargeted).trace
        ((targetCommand "some-org" "some-space" targetActorSpaceFails).Execute packages0 []
          (session0 configTargeted)).2.trace).filter Event.isConfigMutation = [] :=
  Execute_both_space_fails_atomic (targetCommand "some-org" "some-space" targetActorSpaceFails)
    packages0 [] (session0 configTargeted) ⟨rfl, rfl, rfl⟩ (by decide) (by decide)
    someOrg ["org-warning"] rfl someSpace ["space-warning"] (GoError.external "space-not-found")
    rfl

/-- Witness of claim C5: the organization holds exactly `someSpace`, while
`old-space` was targeted before. -/
theorem Execute_org_only_autoTarget_witness :
    ((targetCommand "some-org" "" targetActorOneSpace).Execute packages0 []
        (session0 configTargeted)).1 = none ∧
    (∀ sp : Space, [someSpace] = [sp] →
      ((targetCommand "some-org" "" targetActorOneSpace).Execute packages0 []
          (session0 configTargeted)).2.Config.targetedSpace
        = some { GUID := sp.GUID, Name := sp.Name, AllowSSH := sp.AllowSSH } ∧
      ((targetCommand "some-org" "" targetActorOneSpace).Execute packages0 []
          (session0 configTargeted)).2.Config.HasTargetedSpace = true ∧
      ((targetCommand "some-org" "" targetActorOneSpace).Execute packages0 []
          (session0 configTargeted)).2.Config.TargetedSpace
        = { GUID := sp.GUID, Name := sp.Name, AllowSSH := sp.AllowSSH }) ∧
    ([someSpace].length ≠ 1 →
      ((targetCommand "some-org" "" targetActorOneSpace).Execute packages0 []
          (session0 configTargeted)).2.Config.targetedSpace = none ∧
      ((targetCommand "some-org" "" targetActorOneSpace).Execute packages0 []
          (session0 configTargeted)).2.Config.HasTargetedSpace = false) :=
  Execute_org_only_autoTarget (targetCommand "some-org" "" targetActorOneSpace) packages0 []
    (session0 configTargeted) ⟨rfl, rfl, rfl⟩ (by decide) rfl someOrg ["org-warning"] rfl
    [someSpace] ["spaces-warning"] rfl

/-- Witness of claim C6: nothing is targeted and only a space name is given. -/
theorem Execute_space_only_no_org_witness :
    ((targetCommand "" "some-space" targetActorOneSpace).Execute packages0 []
        (session0 configUntargeted)).1 = some GoError.NoOrganizationTargetedError ∧
    (addedEvents (session0 configUntargeted).trace
        ((targetCommand "" "some-space" targetActorOneSpace).Execute packages0 []
          (session0 configUntargeted)).2.trace).filter Event.isActorCall = [] ∧
    ((targetCommand "" "some-space" targetActorOneSpace).Execute packages0 []
        (session0 configUntargeted)).2.remote = (session0 configUntargeted).remote ∧
    ((targetCommand "" "some-space" targetActorOneSpace).Execute packages0 []
        (session0 configUntargeted)).2.Config = (session0 configUntargeted).Config :=
  Execute_space_only_no_org (targetCommand "" "some-space" targetActorOneSpace) packages0 []
    (session0 configUntargeted) ⟨rfl, rfl, rfl⟩ rfl (by decide) rfl

/-! ## Idempotence of the conditional update -/

/-- Over a remote whose query returns the stored application and leaves the
remote as it is, one invocation of the conditional update either finds the
desired type and adds only its query, or adds its query and one update and
moves the remote to the state the update produced. -/
theorem SetApplicationHealthCheckType_step {σ : Type} (actor : Actor σ)
    (stored : σ → ccv2.Application)
    (hquery : ∀ (q : List ccv2.Query) (st : σ), ∃ ws : Warnings,
      actor.CloudControllerClient.GetApplications q st = (([stored st], ws, none), st))
    (name spaceGUID healthCheckType : String) (w : World σ) :
    ((stored w.remote).HealthCheckType = healthCheckType →
      (actor.SetApplicationHealthCheckTypeByNameAndSpace name spaceGUID healthCheckType w).2
        = { remote := w.remote,
            calls := w.calls ++ [ClientCall.GetApplications (nameAndSpaceQueries name spaceGUID)] }) ∧
    ((stored w.remote).HealthCheckType ≠ healthCheckType →
      (actor.SetApplicationHealthCheckTypeByNameAndSpace name spaceGUID healthCheckType w).2
        = { remote :=
              (actor.CloudControllerClient.UpdateApplication
                { GUID := (stored w.remote).GUID, Name := "", Buildpack := "",
                  DetectedBuildpack := "", HealthCheckType := healthCheckType } w.remote).2,
            calls := w.calls ++ [ClientCall.GetApplications (nameAndSpaceQueries name spaceGUID),
              ClientCall.UpdateApplication
                { GUID := (stored w.remote).GUID, Name := "", Buildpack := "",
                  DetectedBuildpack := "", HealthCheckType := healthCheckType }] }) := by
  obtain ⟨ws, hq⟩ := hquery (nameAndSpaceQueries name spaceGUID) w.remote
  constructor
  · intro heq
    unfold Actor.SetApplicationHealthCheckTypeByNameAndSpace Actor.GetApplicationByNameAndSpace
      Actor.callGetApplications
    simp [hq, heq]
  · intro hne
    unfold Actor.SetApplicationHealthCheckTypeByNameAndSpace Actor.GetApplicationByNameAndSpace
      Actor.callGetApplications Actor.callUpdateApplication
    simp [hq, hne]

/-- Claim C11: over a remote whose query returns the stored application
(leaving the remote unchanged) and whose update stores the health-check type
it is given, two successive invocations of
`SetApplicationHealthCheckTypeByNameAndSpace` with the same name, space GUID
and desired type, the second running on the world the first one left, issue
at most one `UpdateApplication` call in total, and the second invocation
issues none. -/
theorem SetApplicationHealthCheckType_idempotent {σ : Type} (actor : Actor σ)
    (stored : σ → ccv2.Application)
    (hquery : ∀ (q : List ccv2.Query) (st : σ), ∃ ws : Warnings,
      actor.CloudControllerClient.GetApplications q st = (([stored st], ws, none), st))
    (hupdate : ∀ (app : ccv2.Application) (st : σ),
      (stored (actor.CloudControllerClient.UpdateApplication app st).2).HealthCheckType
        = app.HealthCheckType)
    (name spaceGUID healthCheckType : String) (w : World σ) :
    (((actor.SetApplicationHealthCheckTypeByNameAndSpace name spaceGUID healthCheckType
        (actor.SetApplicationHealthCheckTypeByNameAndSpace name spaceGUID healthCheckType
          w).2).2.calls.drop
        (actor.SetApplicationHealthCheckTypeByNameAndSpace name spaceGUID healthCheckType
          w).2.calls.length).filter ClientCall.isUpdateApplication).length = 0 ∧
    (((actor.SetApplicationHealthCheckTypeByNameAndSpace name spaceGUID healthCheckType
        (actor.SetApplicationHealthCheckTypeByNameAndSpace name spaceGUID healthCheckType
          w).2).2.calls.drop w.calls.length).filter ClientCall.isUpdateApplication).length
      ≤ 1 := by
  have h1 := SetApplicationHealthCheckType_step actor stored hquery name spaceGUID
    healthCheckType w
  by_cases hc : (stored w.remote).HealthCheckType = healthCheckType
  · have e1 := h1.1 hc
    have h2 := (SetApplicationHealthCheckType_step actor stored hquery name spaceGUID
      healthCheckType
      (actor.SetApplicationHealthCheckTypeByNameAndSpace name spaceGUID healthCheckType w).2).1
      (by rw [e1]; exact hc)
    rw [h2, e1]
    simp [ClientCall.isUpdateApplication]
  · have e1 := h1.2 hc
    have h2 := (SetApplicationHealthCheckType_step actor stored hquery name spaceGUID
      healthCheckType
      (actor.SetApplicationHealthCheckTypeByNameAndSpace name spaceGUID healthCheckType w).2).1
      (by rw [e1]; exact hupdate _ _)
    rw [h2, e1]
    simp [ClientCall.isUpdateApplication]

/-- Witness of claim C11 on the one-application remote storing `appPort`
(type `port`): requesting `http` twice issues one update in the first
invocation and none in the second; requesting `port` issues none. -/
theorem SetApplicationHealthCheckType_idempotent_witness :
    ((((storeActor.SetApplicationHealthCheckTypeByNameAndSpace "my-app" "space-1-guid" "http"
        (storeActor.SetApplicationHealthCheckTypeByNameAndSpace "my-app" "space-1-guid" "http"
          { remote := appPort, calls := [] }).2).2.calls.drop
        (storeActor.SetApplicationHealthCheckTypeByNameAndSpace "my-app" "space-1-guid" "http"
          { remote := appPort, calls := [] }).2.calls.length).filter
            ClientCall.isUpdateApplication).length = 0 ∧
    (((storeActor.SetApplicationHealthCheckTypeByNameAndSpace "my-app" "space-1-guid" "http"
        (storeActor.SetApplicationHealthCheckTypeByNameAndSpace "my-app" "space-1-guid" "http"
          { remote := appPort, calls := [] }).2).2.calls.drop
        ({ remote := appPort, calls := [] } : World ccv2.Application).calls.length).filter
          ClientCall.isUpdateApplication).length ≤ 1) ∧
    ((storeActor.SetApplicationHealthCheckTypeByNameAndSpace "my-app" "space-1-guid" "http"
        { remote := appPort, calls := [] }).2.calls.filter
          ClientCall.isUpdateApplication).length = 1 ∧
    (storeActor.SetApplicationHealthCheckTypeByNameAndSpace "my-app" "space-1-guid" "http"
        { remote := appPort, calls := [] }).2.remote.HealthCheckType = "http" ∧
    ((storeActor.SetApplicationHealthCheckTypeByNameAndSpace "my-app" "space-1-guid" "port"
        { remote := appPort, calls := [] }).2.calls.filter
          ClientCall.isUpdateApplication).length = 0 :=
  ⟨SetApplicationHealthCheckType_idempotent storeActor (fun st => st)
      (fun _ _ => ⟨["get-warning"], rfl⟩) (fun _ _ => rfl) "my-app" "space-1-guid" "http"
      { remote := appPort, calls := [] },
    by decide, by decide, by decide⟩

/-! ## Client errors and route applications -/

/-- The loop of `GetRouteApplications`, appending each application to the
slice built so far, rebuilds the list it ranges over. -/
theorem foldl_append_singleton (apps acc : List Application) :
    apps.foldl (fun acc app => acc ++ [app]) acc = acc ++ apps := by
  induction apps generalizing acc with
  | nil => simp
  | cons a rest ih => simp [ih]

/-- Claim C13: an error `e` returned by the client with warnings `ws` passes
through unchanged.  When `GetApplications` fails, `GetApplicationByNameAndSpace`
returns the zero-value application, `ws` and `e` itself; when the client's
`GetRouteApplications` fails, the actor's `GetRouteApplications` returns a nil
slice, `ws` and `e` itself. -/
theorem client_error_passes_through {σ : Type} (actor : Actor σ) (ws : Warnings) (e : GoError) :
    (∀ (name spaceGUID : String) (w : World σ) (apps : List ccv2.Application),
      (actor.CloudControllerClient.GetApplications
          (nameAndSpaceQueries name spaceGUID) w.remote).1 = (apps, ws, some e) →
      (actor.GetApplicationByNameAndSpace name spaceGUID w).1
        = (Application.zero, ws, some e)) ∧
    (∀ (routeGUID : String) (query : List ccv2.Query) (w : World σ)
        (apps : List ccv2.Application),
      (actor.CloudControllerClient.GetRouteApplications routeGUID query w.remote).1
        = (apps, ws, some e) →
      (actor.GetRouteApplications routeGUID query w).1 = (none, ws, some e)) := by
  constructor
  · intro name spaceGUID w apps h
    unfold Actor.GetApplicationByNameAndSpace Actor.callGetApplications
    simp only [h]
  · intro routeGUID query w apps h
    unfold Actor.GetRouteApplications Actor.callGetRouteApplications
    simp only [h]

/-- Witness of claim C13: a failing application query and a failing route
query, each with a warning. -/
theorem client_error_passes_through_witness :
    (actorDown.GetApplicationByNameAndSpace "my-app" "space-1-guid" world0).1
      = (Application.zero, ["get-warning"], some (GoError.external "cc-get-apps-error")) ∧
    (actorRouteDown.GetRouteApplications "route-guid" [] world0).1
      = (none, ["route-warning"], some (GoError.external "cc-get-route-apps-error")) :=
  ⟨(client_error_passes_through actorDown ["get-warning"]
      (GoError.external "cc-get-apps-error")).1 "my-app" "space-1-guid" world0 [] rfl,
   (client_error_passes_through actorRouteDown ["route-warning"]
      (GoError.external "cc-get-route-apps-error")).2 "route-guid" [] world0 [appPort] rfl⟩

/-- Claim C19: when the client's `GetRouteApplications` succeeds with the list
`apps` and warnings `ws`, the actor returns a nil error, `ws`, and an
allocated slice holding exactly `apps`: the same length, the same element at
every index, hence the server's order with nothing filtered or duplicated;
for an empty `apps` the slice is empty and allocated, not nil, and there is
no error. -/
theorem GetRouteApplications_all {σ : Type} (actor : Actor σ) (routeGUID : String)
    (query : List ccv2.Query) (w : World σ) (apps : List ccv2.Application) (ws : Warnings)
    (h : (actor.CloudControllerClient.GetRouteApplications routeGUID query w.remote).1
          = (apps, ws, none)) :
    (actor.GetRouteApplications routeGUID query w).1 = (some apps, ws, none) ∧
    (∃ result : List Application,
      (actor.GetRouteApplications routeGUID query w).1.1 = some result ∧
      result.length = apps.length ∧
      ∀ i : Nat, result.get? i = apps.get? i) ∧
    (apps = [] → (actor.GetRouteApplications routeGUID query w).1 = (some [], ws, none)) := by
  have hmain : (actor.GetRouteApplications routeGUID query w).1 = (some apps, ws, none) := by
    unfold Actor.GetRouteApplications Actor.callGetRouteApplications
    simp only [h, foldl_append_singleton, List.nil_append]
  refine ⟨hmain, ⟨apps, by rw [hmain], rfl, fun _ => rfl⟩, ?_⟩
  intro hnil
  rw [hmain, hnil]

/-- Witness of claim C19: the route holds `appPort` and `appTwin`; and a route
without applications gives an allocated empty slice. -/
theorem GetRouteApplications_all_witness :
    ((actorRouteTwo.GetRouteApplications "route-guid" [] world0).1
      = (some [appPort, appTwin], ["route-warning"], none) ∧
    (∃ result : List Application,
      (actorRouteTwo.GetRouteApplications "route-guid" [] world0).1.1 = some result ∧
      result.length = [appPort, appTwin].length ∧
      ∀ i : Nat, result.get? i = [appPort, appTwin].get? i) ∧
    ([appPort, appTwin] = [] →
      (actorRouteTwo.GetRouteApplications "route-guid" [] world0).1
        = (some [], ["route-warning"], none))) ∧
    (actorOne.GetRouteApplications "route-guid" [] world0).1 = (some [], [], none) :=
  ⟨GetRouteApplications_all actorRouteTwo "route-guid" [] world0 [appPort, appTwin]
    ["route-warning"] rfl,
   (GetRouteApplications_all actorOne "route-guid" [] world0 [] [] rfl).2.2 rfl⟩

/-! ## The target command: further branches -/

/-- Claim C12 (branch 2 is not atomic): in a run of `Execute` that reaches the
`switch` with only an organization name given, if the organization resolves
to `org` and `GetOrganizationSpaces` then fails with `e`, `Execute` returns a
non-nil error (the display form of `e`) while the session keeps the commit of
`setOrg`: the targeted organization is `org.GUID` with the given
organization name and no space is targeted. -/
theorem Execute_org_only_listing_fails {σ : Type} (cmd : TargetCommand σ) (pk : Packages)
    (args : List String) (s : Session σ) (hreach : cmd.reachesSwitch s)
    (horg : cmd.Organization ≠ "") (hspace : cmd.Space = "")
    (org : Organization) (ws1 : Warnings)
    (hO : (cmd.Actor.GetOrganizationByName cmd.Organization s.remote).1 = (org, ws1, none))
    (L : List Space) (ws2 : Warnings) (e : GoError)
    (hL : (cmd.Actor.GetOrganizationSpaces org.GUID
            (cmd.Actor.GetOrganizationByName cmd.Organization s.remote).2).1
          = (L, ws2, some e)) :
    (cmd.Execute pk args s).1 = some (pk.HandleError e) ∧
    (cmd.Execute pk args s).1 ≠ none ∧
    (cmd.Execute pk args s).2.Config.targetedOrganization
      = some { GUID := org.GUID, Name := cmd.Organization } ∧
    (cmd.Execute pk args s).2.Config.targetedSpace = none ∧
    (cmd.Execute pk args s).2.Config.HasTargetedSpace = false := by
  obtain ⟨pre, _, _, _, hE⟩ := Execute_of_reachesSwitch cmd pk args s hreach
  have hb : ∃ s4 : Session σ,
      cmd.runBranch pk { s with trace := s.trace ++ pre } = (some (pk.HandleError e), s4) ∧
      s4.Config.targetedOrganization = some { GUID := org.GUID, Name := cmd.Organization } ∧
      s4.Config.targetedSpace = none := by
    unfold TargetCommand.runBranch TargetCommand.setOrg TargetCommand.autoTargetSpace
      TargetCommand.callGetOrganizationByName TargetCommand.callGetOrganizationSpaces
    simp only [hspace, horg, hO, bne_self_eq_false, Bool.and_false, bne_iff_ne, ne_eq,
      not_false_eq_true, decide_True, if_true, Bool.false_eq_true, if_false,
      Session.DisplayWarnings, Session.emit, Session.SetOrganizationInformation,
      Session.UnsetSpaceInformation, Config.SetOrganizationInformation,
      Config.UnsetSpaceInformation, Config.TargetedOrganization, Option.getD_some, hL]
    exact ⟨_, rfl, rfl, rfl⟩
  obtain ⟨s4, hb1, ho, hsp⟩ := hb
  rw [hE, hb1]
  simp [ho, hsp, Config.HasTargetedSpace]

/-- Witness of claim C12: `old-org` and `old-space` are targeted, the
organization resolves and the space listing fails. -/
theorem Execute_org_only_listing_fails_witness :
    ((targetCommand "some-org" "" targetActorListingFails).Execute packages0 []
        (session0 configTargeted)).1
      = some (packages0.HandleError (GoError.external "cc-get-spaces-error")) ∧
    ((targetCommand "some-org" "" targetActorListingFails).Execute packages0 []
        (session0 configTargeted)).1 ≠ none ∧
    ((targetCommand "some-org" "" targetActorListingFails).Execute packages0 []
        (session0 configTargeted)).2.Config.targetedOrganization
      = some { GUID := someOrg.GUID,
               Name := (targetCommand "some-org" "" targetActorListingFails).Organization } ∧
    ((targetCommand "some-org" "" targetActorListingFails).Execute packages0 []
        (session0 configTargeted)).2.Config.targetedSpace = none ∧
    ((targetCommand "some-org" "" targetActorListingFails).Execute packages0 []
        (session0 configTargeted)).2.Config.HasTargetedSpace = false :=
  Execute_org_only_listing_fails (targetCommand "some-org" "" targetActorListingFails)
    packages0 [] (session0 configTargeted) ⟨rfl, rfl, rfl⟩ (by decide) rfl
    someOrg ["org-warning"] rfl [] ["spaces-warning"] (GoError.external "cc-get-spaces-error")
    rfl

/-- Claim C15 (branch 1 success): in a run of `Execute` that reaches the
`switch` with both names given, if the organization resolves to `org` and the
space lookup succeeds with `space`, the actor calls of the run are exactly
`GetOrganizationByName` on the given name followed by
`GetSpaceByOrganizationAndName` on `org.GUID` and the given space name (no
`GetOrganizationSpaces`), `Execute` returns nil, and afterwards the targeted
organization is `org.GUID` with the given organization name and the targeted
space is `space.GUID`, `space.Name`, `space.AllowSSH`. -/
theorem Execute_both_success {σ : Type} (cmd : TargetCommand σ) (pk : Packages)
    (args : List String) (s : Session σ) (hreach : cmd.reachesSwitch s)
    (horg : cmd.Organization ≠ "") (hspace : cmd.Space ≠ "")
    (org : Organization) (ws1 : Warnings)
    (hO : (cmd.Actor.GetOrganizationByName cmd.Organization s.remote).1 = (org, ws1, none))
    (space : Space) (ws2 : Warnings)
    (hS : (cmd.Actor.GetSpaceByOrganizationAndName org.GUID cmd.Space
            (cmd.Actor.GetOrganizationByName cmd.Organization s.remote).2).1
          = (space, ws2, none)) :
    (cmd.Execute pk args s).1 = none ∧
    (addedEvents s.trace (cmd.Execute pk args s).2.trace).filter Event.isActorCall
      = [Event.GetOrganizationByName cmd.Organization,
         Event.GetSpaceByOrganizationAndName org.GUID cmd.Space] ∧
    (cmd.Execute pk args s).2.Config.targetedOrganization
      = some { GUID := org.GUID, Name := cmd.Organization } ∧
    (cmd.Execute pk args s).2.Config.targetedSpace
      = some { GUID := space.GUID, Name := space.Name, AllowSSH := space.AllowSSH } := by
  obtain ⟨pre, _, ha, _, hE⟩ := Execute_of_reachesSwitch cmd pk args s hreach
  have hb : cmd.runBranch pk { s with trace := s.trace ++ pre } =
      (none,
        { remote := (cmd.Actor.GetSpaceByOrganizationAndName org.GUID cmd.Space
            (cmd.Actor.GetOrganizationByName cmd.Organization s.remote).2).2,
          Config :=
            { s.Config with
              targetedOrganization := some { GUID := org.GUID, Name := cmd.Organization },
              targetedSpace :=
                some { GUID := space.GUID, Name := space.Name, AllowSSH := space.AllowSSH } },
          trace := s.trace ++ (pre ++
            [Event.GetOrganizationByName cmd.Organization, Event.DisplayWarnings ws1,
             Event.GetSpaceByOrganizationAndName org.GUID cmd.Space,
             Event.DisplayWarnings ws2,
             Event.SetOrganizationInformation org.GUID cmd.Organization,
             Event.SetSpaceInformation space.GUID space.Name space.AllowSSH]) }) := by
    unfold TargetCommand.runBranch TargetCommand.setOrgAndSpace
      TargetCommand.callGetOrganizationByName TargetCommand.callGetSpaceByOrganizationAndName
      Session.DisplayWarnings Session.emit Session.SetOrganizationInformation
      Session.SetSpaceInformation Config.SetOrganizationInformation Config.SetSpaceInformation
    simp [horg, hspace, hO, hS]
  rw [hE, hb]
  simp only
  obtain ⟨l, hl, _, hla, _⟩ := report_frame cmd s.Config.currentUser.1
    ({ remote := (cmd.Actor.GetSpaceByOrganizationAndName org.GUID cmd.Space
            (cmd.Actor.GetOrganizationByName cmd.Organization s.remote).2).2,
          Config :=
            { s.Config with
              targetedOrganization := some { GUID := org.GUID, Name := cmd.Organization },
              targetedSpace :=
                some { GUID := space.GUID, Name := space.Name, AllowSSH := space.AllowSSH } },
          trace := s.trace ++ (pre ++
            [Event.GetOrganizationByName cmd.Organization, Event.DisplayWarnings ws1,
             Event.GetSpaceByOrganizationAndName org.GUID cmd.Space,
             Event.DisplayWarnings ws2,
             Event.SetOrganizationInformation org.GUID cmd.Organization,
             Event.SetSpaceInformation space.GUID space.Name space.AllowSSH]) } : Session σ)
  rw [hl]
  simp only [List.append_assoc, addedEvents_append]
  simp [ha, hla, Event.isActorCall]

/-- Witness of claim C15: both lookups succeed. -/
theorem Execute_both_success_witness :
    ((targetCommand "some-org" "some-space" targetActorOneSpace).Execute packages0 []
        (session0 configUntargeted)).1 = none ∧
    (addedEvents (session0 configUntargeted).trace
        ((targetCommand "some-org" "some-space" targetActorOneSpace).Execute packages0 []
          (session0 configUntargeted)).2.trace).filter Event.isActorCall
      = [Event.GetOrganizationByName
          (targetCommand "some-org" "some-space" targetActorOneSpace).Organization,
         Event.GetSpaceByOrganizationAndName someOrg.GUID
          (targetCommand "some-org" "some-space" targetActorOneSpace).Space] ∧
    ((targetCommand "some-org" "some-space" targetActorOneSpace).Execute packages0 []
        (session0 configUntargeted)).2.Config.targetedOrganization
      = some { GUID := someOrg.GUID,
               Name := (targetCommand "some-org" "some-space" targetActorOneSpace).Organization } ∧
    ((targetCommand "some-org" "some-space" targetActorOneSpace).Execute packages0 []
        (session0 configUntargeted)).2.Config.targetedSpace
      = some { GUID := someSpace.GUID, Name := someSpace.Name,
               AllowSSH := someSpace.AllowSSH } :=
  Execute_both_success (targetCommand "some-org" "some-space" targetActorOneSpace) packages0 []
    (session0 configUntargeted) ⟨rfl, rfl, rfl⟩ (by decide) (by decide)
    someOrg ["org-warning"] rfl someSpace ["space-warning"] rfl

/-- Claim C16 (branch 3 with an organization targeted): in a run of `Execute`
that reaches the `switch` with only a space name given while an organization
is targeted, the actor calls of the run are exactly one
`GetSpaceByOrganizationAndName`, on the targeted organization's GUID and the
given space name.  If it succeeds with `space`, `Execute` returns nil, the
targeted space becomes `space.GUID`, `space.Name`, `space.AllowSSH` and the
targeted organization is unchanged; if it fails with `e`, `Execute` returns a
non-nil error and the configuration is the one before the call. -/
theorem Execute_space_only_with_org {σ : Type} (cmd : TargetCommand σ) (pk : Packages)
    (args : List String) (s : Session σ) (hreach : cmd.reachesSwitch s)
    (horg : cmd.Organization = "") (hspace : cmd.Space ≠ "")
    (hhas : s.Config.HasTargetedOrganization = true)
    (space : Space) (ws : Warnings) (err : Option GoError)
    (hS : (cmd.Actor.GetSpaceByOrganizationAndName s.Config.TargetedOrganization.GUID
            cmd.Space s.remote).1 = (space, ws, err)) :
    (addedEvents s.trace (cmd.Execute pk args s).2.trace).filter Event.isActorCall
      = [Event.GetSpaceByOrganizationAndName s.Config.TargetedOrganization.GUID cmd.Space] ∧
    (err = none →
      (cmd.Execute pk args s).1 = none ∧
      (cmd.Execute pk args s).2.Config.targetedSpace
        = some { GUID := space.GUID, Name := space.Name, AllowSSH := space.AllowSSH } ∧
      (cmd.Execute pk args s).2.Config.targetedOrganization = s.Config.targetedOrganization) ∧
    (∀ e : GoError, err = some e →
      (cmd.Execute pk args s).1 = some (pk.HandleError e) ∧
      (cmd.Execute pk args s).1 ≠ none ∧
      (cmd.Execute pk args s).2.Config = s.Config) := by
  obtain ⟨pre, _, ha, _, hE⟩ := Execute_of_reachesSwitch cmd pk args s hreach
  cases err with
  | some e =>
    have hb : cmd.runBranch pk { s with trace := s.trace ++ pre } =
        (some (pk.HandleError e),
          { remote := (cmd.Actor.GetSpaceByOrganizationAndName
              s.Config.TargetedOrganization.GUID cmd.Space s.remote).2,
            Config := s.Config,
            trace := s.trace ++ (pre ++
              [Event.GetSpaceByOrganizationAndName s.Config.TargetedOrganization.GUID cmd.Space,
               Event.DisplayWarnings ws]) }) := by
      unfold TargetCommand.runBranch TargetCommand.setSpace
        TargetCommand.callGetSpaceByOrganizationAndName Session.DisplayWarnings Session.emit
      simp [horg, hspace, hhas, hS]
    rw [hE, hb]
    simp only [addedEvents_append]
    simp [ha, Event.isActorCall]
  | none =>
    have hb : cmd.runBranch pk { s with trace := s.trace ++ pre } =
        (none,
          { remote := (cmd.Actor.GetSpaceByOrganizationAndName
              s.Config.TargetedOrganization.GUID cmd.Space s.remote).2,
            Config :=
              { s.Config with
                targetedSpace :=
                  some { GUID := space.GUID, Name := space.Name, AllowSSH := space.AllowSSH } },
            trace := s.trace ++ (pre ++
              [Event.GetSpaceByOrganizationAndName s.Config.TargetedOrganization.GUID cmd.Space,
               Event.DisplayWarnings ws,
               Event.SetSpaceInformation space.GUID space.Name space.AllowSSH]) }) := by
      unfold TargetCommand.runBranch TargetCommand.setSpace
        TargetCommand.callGetSpaceByOrganizationAndName Session.DisplayWarnings Session.emit
        Session.SetSpaceInformation Config.SetSpaceInformation
      simp [horg, hspace, hhas, hS]
    rw [hE, hb]
    simp only
    obtain ⟨l, hl, _, hla, _⟩ := report_frame cmd s.Config.currentUser.1
      ({ remote := (cmd.Actor.GetSpaceByOrganizationAndName
              s.Config.TargetedOrganization.GUID cmd.Space s.remote).2,
            Config :=
              { s.Config with
                targetedSpace :=
                  some { GUID := space.GUID, Name := space.Name, AllowSSH := space.AllowSSH } },
            trace := s.trace ++ (pre ++
              [Event.GetSpaceByOrganizationAndName s.Config.TargetedOrganization.GUID cmd.Space,
               Event.DisplayWarnings ws,
               Event.SetSpaceInformation space.GUID space.Name space.AllowSSH]) } : Session σ)
    rw [hl]
    simp only [List.append_assoc, addedEvents_append]
    simp [ha, hla, Event.isActorCall]

/-- Witness of claim C16: with `old-org` targeted, one run whose space lookup
succeeds and one whose space lookup fails. -/
theorem Execute_space_only_with_org_witness :
    (((targetCommand "" "some-space" targetActorOneSpace).Execute packages0 []
        (session0 configTargeted)).1 = none ∧
      ((targetCommand "" "some-space" targetActorOneSpace).Execute packages0 []
        (session0 configTargeted)).2.Config.targetedSpace
        = some { GUID := someSpace.GUID, Name := someSpace.Name,
                 AllowSSH := someSpace.AllowSSH } ∧
      ((targetCommand "" "some-space" targetActorOneSpace).Execute packages0 []
        (session0 configTargeted)).2.Config.targetedOrganization
        = (session0 configTargeted).Config.targetedOrganization) ∧
    (((targetCommand "" "some-space" targetActorSpaceFails).Execute packages0 []
        (session0 configTargeted)).1
        = some (packages0.HandleError (GoError.external "space-not-found")) ∧
      ((targetCommand "" "some-space" targetActorSpaceFails).Execute packages0 []
        (session0 configTargeted)).1 ≠ none ∧
      ((targetCommand "" "some-space" targetActorSpaceFails).Execute packages0 []
        (session0 configTargeted)).2.Config = (session0 configTargeted).Config) ∧
    (addedEvents (session0 configTargeted).trace
        ((targetCommand "" "some-space" targetActorSpaceFails).Execute packages0 []
          (session0 configTargeted)).2.trace).filter Event.isActorCall
      = [Event.GetSpaceByOrganizationAndName "old-org-guid" "some-space"] :=
  ⟨(Execute_space_only_with_org (targetCommand "" "some-space" targetActorOneSpace) packages0 []
      (session0 configTargeted) ⟨rfl, rfl, rfl⟩ rfl (by decide) rfl
      someSpace ["space-warning"] none rfl).2.1 rfl,
   (Execute_space_only_with_org (targetCommand "" "some-space" targetActorSpaceFails) packages0 []
      (session0 configTargeted) ⟨rfl, rfl, rfl⟩ rfl (by decide) rfl
      someSpace ["space-warning"] (some (GoError.external "space-not-found")) rfl).2.2
      (GoError.external "space-not-found") rfl,
   (Execute_space_only_with_org (targetCommand "" "some-space" targetActorSpaceFails) packages0 []
      (session0 configTargeted) ⟨rfl, rfl, rfl⟩ rfl (by decide) rfl
      someSpace ["space-warning"] (some (GoError.external "space-not-found")) rfl).1⟩

/-- Claim C17 (branch 4): in a run of `Execute` that reaches the `switch` with
neither an organization name nor a space name given, no actor call and no
session-state mutator occurs among the events of the run, the remote state
and the configuration are the ones before the call, and `Execute` returns
nil. -/
theorem Execute_neither {σ : Type} (cmd : TargetCommand σ) (pk : Packages)
    (args : List String) (s : Session σ) (hreach : cmd.reachesSwitch s)
    (horg : cmd.Organization = "") (hspace : cmd.Space = "") :
    (cmd.Execute pk args s).1 = none ∧
    (addedEvents s.trace (cmd.Execute pk args s).2.trace).filter Event.isActorCall = [] ∧
    (addedEvents s.trace (cmd.Execute pk args s).2.trace).filter Event.isConfigMutation = [] ∧
    (cmd.Execute pk args s).2.Config = s.Config ∧
    (cmd.Execute pk args s).2.remote = s.remote := by
  obtain ⟨pre, hm, ha, _, hE⟩ := Execute_of_reachesSwitch cmd pk args s hreach
  have hb : cmd.runBranch pk { s with trace := s.trace ++ pre } =
      (none, { s with trace := s.trace ++ pre }) := by
    unfold TargetCommand.runBranch
    simp [horg, hspace]
  rw [hE, hb]
  simp only
  obtain ⟨l, hl, hlm, hla, _⟩ := report_frame cmd s.Config.currentUser.1
    ({ s with trace := s.trace ++ pre } : Session σ)
  rw [hl]
  simp only [List.append_assoc, addedEvents_append]
  simp [ha, hla, hm, hlm]

/-- Witness of claim C17: no name is given while `old-org` and `old-space`
are targeted. -/
theorem Execute_neither_witness :
    ((targetCommand "" "" targetActorOneSpace).Execute packages0 []
        (session0 configTargeted)).1 = none ∧
    (addedEvents (session0 configTargeted).trace
        ((targetCommand "" "" targetActorOneSpace).Execute packages0 []
          (session0 configTargeted)).2.trace).filter Event.isActorCall = [] ∧
    (addedEvents (session0 configTargeted).trace
        ((targetCommand "" "" targetActorOneSpace).Execute packages0 []
          (session0 configTargeted)).2.trace).filter Event.isConfigMutation = [] ∧
    ((targetCommand "" "" targetActorOneSpace).Execute packages0 []
        (session0 configTargeted)).2.Config = (session0 configTargeted).Config ∧
    ((targetCommand "" "" targetActorOneSpace).Execute packages0 []
        (session0 configTargeted)).2.remote = (session0 configTargeted).remote :=
  Execute_neither (targetCommand "" "" targetActorOneSpace) packages0 []
    (session0 configTargeted) ⟨rfl, rfl, rfl⟩ rfl rfl

/-- Claim C20: in a run of `Execute` that reaches the `switch` with an
organization name given, with or without a space name, if
`GetOrganizationByName` fails with `e`, `Execute` returns a non-nil error (the
display form of `e`), the only actor call of the run is that
`GetOrganizationByName` (neither `GetSpaceByOrganizationAndName` nor
`GetOrganizationSpaces` is called), no session-state mutator occurs, and the
configuration, with the organization and space targeted before, is
unchanged. -/
theorem Execute_org_lookup_fails {σ : Type} (cmd : TargetCommand σ) (pk : Packages)
    (args : List String) (s : Session σ) (hreach : cmd.reachesSwitch s)
    (horg : cmd.Organization ≠ "")
    (org : Organization) (ws : Warnings) (e : GoError)
    (hO : (cmd.Actor.GetOrganizationByName cmd.Organization s.remote).1 = (org, ws, some e)) :
    (cmd.Execute pk args s).1 = some (pk.HandleError e) ∧
    (cmd.Execute pk args s).1 ≠ none ∧
    (addedEvents s.trace (cmd.Execute pk args s).2.trace).filter Event.isActorCall
      = [Event.GetOrganizationByName cmd.Organization] ∧
    (addedEvents s.trace (cmd.Execute pk args s).2.trace).filter Event.isConfigMutation = [] ∧
    (cmd.Execute pk args s).2.Config = s.Config := by
  obtain ⟨pre, hm, ha, _, hE⟩ := Execute_of_reachesSwitch cmd pk args s hreach
  have hb : cmd.runBranch pk { s with trace := s.trace ++ pre } =
      (some (pk.HandleError e),
        { remote := (cmd.Actor.GetOrganizationByName cmd.Organization s.remote).2,
          Config := s.Config,
          trace := s.trace ++ (pre ++
            [Event.GetOrganizationByName cmd.Organization, Event.DisplayWarnings ws]) }) := by
    unfold TargetCommand.runBranch TargetCommand.setOrgAndSpace TargetCommand.setOrg
      TargetCommand.callGetOrganizationByName Session.DisplayWarnings Session.emit
    by_cases hsp : cmd.Space = ""
    · simp [horg, hsp, hO]
    · simp [horg, hsp, hO]
  rw [hE, hb]
  simp only [addedEvents_append]
  simp [ha, hm, Event.isActorCall, Event.isConfigMutation]

/-- Witness of claim C20: the organization lookup fails, once with a space
name given and once without. -/
theorem Execute_org_lookup_fails_witness :
    (((targetCommand "some-org" "some-space" targetActorOrgFails).Execute packages0 []
        (session0 configTargeted)).1
        = some (packages0.HandleError (GoError.external "org-not-found")) ∧
      ((targetCommand "some-org" "some-space" targetActorOrgFails).Execute packages0 []
        (session0 configTargeted)).1 ≠ none ∧
      (addedEvents (session0 configTargeted).trace
        ((targetCommand "some-org" "some-space" targetActorOrgFails).Execute packages0 []
          (session0 configTargeted)).2.trace).filter Event.isActorCall
        = [Event.GetOrganizationByName
            (targetCommand "some-org" "some-space" targetActorOrgFails).Organization] ∧
      (addedEvents (session0 configTargeted).trace
        ((targetCommand "some-org" "some-space" targetActorOrgFails).Execute packages0 []
          (session0 configTargeted)).2.trace).filter Event.isConfigMutation = [] ∧
      ((targetCommand "some-org" "some-space" targetActorOrgFails).Execute packages0 []
        (session0 configTargeted)).2.Config = (session0 configTargeted).Config) ∧
    ((targetCommand "some-org" "" targetActorOrgFails).Execute packages0 []
        (session0 configTargeted)).2.Config = (session0 configTargeted).Config :=
  ⟨Execute_org_lookup_fails (targetCommand "some-org" "some-space" targetActorOrgFails)
      packages0 [] (session0 configTargeted) ⟨rfl, rfl, rfl⟩ (by decide)
      someOrg ["org-warning"] (GoError.external "org-not-found") rfl,
   (Execute_org_lookup_fails (targetCommand "some-org" "" targetActorOrgFails)
      packages0 [] (session0 configTargeted) ⟨rfl, rfl, rfl⟩ (by decide)
      someOrg ["org-warning"] (GoError.external "org-not-found") rfl).2.2.2.2⟩

/-! ## The target command: warnings and the returned error -/

/-- Displayed warnings of a concatenation of traces. -/
theorem displayedWarnings_append (l1 l2 : List Event) :
    displayedWarnings (l1 ++ l2) = displayedWarnings l1 ++ displayedWarnings l2 := by
  simp [displayedWarnings]

/-- Replaying a concatenation of traces replays the first part, then the
second from the remote state the first part left. -/
theorem returnedWarnings_append {σ : Type} (actor : TargetActor σ) (l1 l2 : List Event)
    (st : σ) :
    returnedWarnings actor (l1 ++ l2) st =
      ((returnedWarnings actor l1 st).1
          ++ (returnedWarnings actor l2 (returnedWarnings actor l1 st).2).1,
        (returnedWarnings actor l2 (returnedWarnings actor l1 st).2).2) := by
  induction l1 generalizing st with
  | nil => simp [returnedWarnings]
  | cons e rest ih =>
    cases e <;> simp [returnedWarnings, ih]

/-- A trace without actor calls returns no warnings and leaves the remote
state alone. -/
theorem returnedWarnings_of_no_actor_call {σ : Type} (actor : TargetActor σ) (l : List Event)
    (st : σ) (h : l.filter Event.isActorCall = []) :
    returnedWarnings actor l st = ([], st) := by
  induction l generalizing st with
  | nil => simp [returnedWarnings]
  | cons e rest ih =>
    cases e <;> simp_all [returnedWarnings, Event.isActorCall, List.filter_cons]

/-- Shape of `setOrgAndSpace`: its error, remote state and configuration do
not depend on the trace it starts from, it appends a fixed list of events, and
the warnings it displays are the warnings the actor returned, in call order. -/
theorem setOrgAndSpace_shape {σ : Type} (cmd : TargetCommand σ) (pk : Packages)
    (st : σ) (c : Config) :
    ∃ (err : Option GoError) (r : σ) (c1 : Config) (l : List Event),
      (∀ t : List Event,
        cmd.setOrgAndSpace pk { remote := st, Config := c, trace := t }
          = (err, { remote := r, Config := c1, trace := t ++ l })) ∧
      returnedWarnings cmd.Actor l st = (displayedWarnings l, r) := by
  rcases hO : cmd.Actor.GetOrganizationByName cmd.Organization st with ⟨⟨org, ws1, err1⟩, st1⟩
  cases err1 with
  | some e =>
    refine ⟨some (pk.HandleError e), st1, c,
      [Event.GetOrganizationByName cmd.Organization, Event.DisplayWarnings ws1], ?_, ?_⟩
    · intro t
      simp [TargetCommand.setOrgAndSpace, TargetCommand.callGetOrganizationByName,
        Session.DisplayWarnings, Session.emit, hO]
    · simp [returnedWarnings, displayedWarnings, Event.displayedWarnings, hO]
  | none =>
    rcases hS : cmd.Actor.GetSpaceByOrganizationAndName org.GUID cmd.Space st1
      with ⟨⟨space, ws2, err2⟩, st2⟩
    cases err2 with
    | some e =>
      refine ⟨some (pk.HandleError e), st2, c,
        [Event.GetOrganizationByName cmd.Organization, Event.DisplayWarnings ws1,
         Event.GetSpaceByOrganizationAndName org.GUID cmd.Space, Event.DisplayWarnings ws2],
        ?_, ?_⟩
      · intro t
        simp [TargetCommand.setOrgAndSpace, TargetCommand.callGetOrganizationByName,
          TargetCommand.callGetSpaceByOrganizationAndName,
          Session.DisplayWarnings, Session.emit, hO, hS]
      · simp [returnedWarnings, displayedWarnings, Event.displayedWarnings, hO, hS]
    | none =>
      refine ⟨none, st2,
        (c.SetOrganizationInformation org.GUID cmd.Organization).SetSpaceInformation
          space.GUID space.Name space.AllowSSH,
        [Event.GetOrganizationByName cmd.Organization, Event.DisplayWarnings ws1,
         Event.GetSpaceByOrganizationAndName org.GUID cmd.Space, Event.DisplayWarnings ws2,
         Event.SetOrganizationInformation org.GUID cmd.Organization,
         Event.SetSpaceInformation space.GUID space.Name space.AllowSSH],
        ?_, ?_⟩
      · intro t
        simp [TargetCommand.setOrgAndSpace, TargetCommand.callGetOrganizationByName,
          TargetCommand.callGetSpaceByOrganizationAndName,
          Session.DisplayWarnings, Session.emit, Session.SetOrganizationInformation,
          Session.SetSpaceInformation, hO, hS]
      · simp [returnedWarnings, displayedWarnings, Event.displayedWarnings, hO, hS]

/-- Shape of `setOrg`, as for `setOrgAndSpace`. -/
theorem setOrg_shape {σ : Type} (cmd : TargetCommand σ) (pk : Packages)
    (st : σ) (c : Config) :
    ∃ (err : Option GoError) (r : σ) (c1 : Config) (l : List Event),
      (∀ t : List Event,
        cmd.setOrg pk { remote := st, Config := c, trace := t }
          = (err, { remote := r, Config := c1, trace := t ++ l })) ∧
      returnedWarnings cmd.Actor l st = (displayedWarnings l, r) := by
  rcases hO : cmd.Actor.GetOrganizationByName cmd.Organization st with ⟨⟨org, ws1, err1⟩, st1⟩
  cases err1 with
  | some e =>
    refine ⟨some (pk.HandleError e), st1, c,
      [Event.GetOrganizationByName cmd.Organization, Event.DisplayWarnings ws1], ?_, ?_⟩
    · intro t
      simp [TargetCommand.setOrg, TargetCommand.callGetOrganizationByName,
        Session.DisplayWarnings, Session.emit, hO]
    · simp [returnedWarnings, displayedWarnings, Event.displayedWarnings, hO]
  | none =>
    refine ⟨none, st1,
      (c.SetOrganizationInformation org.GUID cmd.Organization).UnsetSpaceInformation,
      [Event.GetOrganizationByName cmd.Organization, Event.DisplayWarnings ws1,
       Event.SetOrganizationInformation org.GUID cmd.Organization,
       Event.UnsetSpaceInformation], ?_, ?_⟩
    · intro t
      simp [TargetCommand.setOrg, TargetCommand.callGetOrganizationByName,
        Session.DisplayWarnings, Session.emit, Session.SetOrganizationInformation,
        Session.UnsetSpaceInformation, hO]
    · simp [returnedWarnings, displayedWarnings, Event.displayedWarnings, hO]

/-- Shape of `autoTargetSpace`, as for `setOrgAndSpace`. -/
theorem autoTargetSpace_shape {σ : Type} (cmd : TargetCommand σ) (pk : Packages)
    (orgGUID : String) (st : σ) (c : Config) :
    ∃ (err : Option GoError) (r : σ) (c1 : Config) (l : List Event),
      (∀ t : List Event,
        cmd.autoTargetSpace pk orgGUID { remote := st, Config := c, trace := t }
          = (err, { remote := r, Config := c1, trace := t ++ l })) ∧
      returnedWarnings cmd.Actor l st = (displayedWarnings l, r) := by
  rcases hL : cmd.Actor.GetOrganizationSpaces orgGUID st with ⟨⟨spaces, ws, err1⟩, st1⟩
  cases err1 with
  | some e =>
    refine ⟨some (pk.HandleError e), st1, c,
      [Event.GetOrganizationSpaces orgGUID, Event.DisplayWarnings ws], ?_, ?_⟩
    · intro t
      simp [TargetCommand.autoTargetSpace, TargetCommand.callGetOrganizationSpaces,
        Session.DisplayWarnings, Session.emit, hL]
    · simp [returnedWarnings, displayedWarnings, Event.displayedWarnings, hL]
  | none =>
    match spaces, hL with
    | [], hL =>
      refine ⟨none, st1, c,
        [Event.GetOrganizationSpaces orgGUID, Event.DisplayWarnings ws], ?_, ?_⟩
      · intro t
        simp [TargetCommand.autoTargetSpace, TargetCommand.callGetOrganizationSpaces,
          Session.DisplayWarnings, Session.emit, hL]
      · simp [returnedWarnings, displayedWarnings, Event.displayedWarnings, hL]
    | [space], hL =>
      refine ⟨none, st1, c.SetSpaceInformation space.GUID space.Name space.AllowSSH,
        [Event.GetOrganizationSpaces orgGUID, Event.DisplayWarnings ws,
         Event.SetSpaceInformation space.GUID space.Name space.AllowSSH], ?_, ?_⟩
      · intro t
        simp [TargetCommand.autoTargetSpace, TargetCommand.callGetOrganizationSpaces,
          Session.DisplayWarnings, Session.emit, Session.SetSpaceInformation, hL]
      · simp [returnedWarnings, displayedWarnings, Event.displayedWarnings, hL]
    | _ :: _ :: _, hL =>
      refine ⟨none, st1, c,
        [Event.GetOrganizationSpaces orgGUID, Event.DisplayWarnings ws], ?_, ?_⟩
      · intro t
        simp [TargetCommand.autoTargetSpace, TargetCommand.callGetOrganizationSpaces,
          Session.DisplayWarnings, Session.emit, hL]
      · simp [returnedWarnings, displayedWarnings, Event.displayedWarnings, hL]

/-- Shape of `setSpace`, as for `setOrgAndSpace`. -/
theorem setSpace_shape {σ : Type} (cmd : TargetCommand σ) (pk : Packages)
    (st : σ) (c : Config) :
    ∃ (err : Option GoError) (r : σ) (c1 : Config) (l : List Event),
      (∀ t : List Event,
        cmd.setSpace pk { remote := st, Config := c, trace := t }
          = (err, { remote := r, Config := c1, trace := t ++ l })) ∧
      returnedWarnings cmd.Actor l st = (displayedWarnings l, r) := by
  by_cases hhas : c.HasTargetedOrganization = true
  · rcases hS : cmd.Actor.GetSpaceByOrganizationAndName c.TargetedOrganization.GUID cmd.Space st
      with ⟨⟨space, ws, err1⟩, st1⟩
    cases err1 with
    | some e =>
      refine ⟨some (pk.HandleError e), st1, c,
        [Event.GetSpaceByOrganizationAndName c.TargetedOrganization.GUID cmd.Space,
         Event.DisplayWarnings ws], ?_, ?_⟩
      · intro t
        simp [TargetCommand.setSpace, TargetCommand.callGetSpaceByOrganizationAndName,
          Session.DisplayWarnings, Session.emit, hhas, hS]
      · simp [returnedWarnings, displayedWarnings, Event.displayedWarnings, hS]
    | none =>
      refine ⟨none, st1, c.SetSpaceInformation space.GUID space.Name space.AllowSSH,
        [Event.GetSpaceByOrganizationAndName c.TargetedOrganization.GUID cmd.Space,
         Event.DisplayWarnings ws,
         Event.SetSpaceInformation space.GUID space.Name space.AllowSSH], ?_, ?_⟩
      · intro t
        simp [TargetCommand.setSpace, TargetCommand.callGetSpaceByOrganizationAndName,
          Session.DisplayWarnings, Session.emit, Session.SetSpaceInformation, hhas, hS]
      · simp [returnedWarnings, displayedWarnings, Event.displayedWarnings, hS]
  · refine ⟨some GoError.NoOrganizationTargetedError, st, c, [], ?_, ?_⟩
    · intro t
      simp [TargetCommand.setSpace, hhas]
    · simp [returnedWarnings, displayedWarnings]

/-- Shape of the `switch`: whichever branch is chosen, its error, remote state
and configuration do not depend on the trace it starts from, and the warnings
it displays are the warnings the actor returned, in call order. -/
theorem runBranch_shape {σ : Type} (cmd : TargetCommand σ) (pk : Packages)
    (st : σ) (c : Config) :
    ∃ (err : Option GoError) (r : σ) (c1 : Config) (l : List Event),
      (∀ t : List Event,
        cmd.runBranch pk { remote := st, Config := c, trace := t }
          = (err, { remote := r, Config := c1, trace := t ++ l })) ∧
      returnedWarnings cmd.Actor l st = (displayedWarnings l, r) := by
  by_cases horg : cmd.Organization = ""
  · by_cases hspace : cmd.Space = ""
    · refine ⟨none, st, c, [], ?_, ?_⟩
      · intro t
        simp [TargetCommand.runBranch, horg, hspace]
      · simp [returnedWarnings, displayedWarnings]
    · obtain ⟨err, r, c1, l, hrun, hw⟩ := setSpace_shape cmd pk st c
      refine ⟨err, r, c1, l, ?_, hw⟩
      intro t
      simp [TargetCommand.runBranch, horg, hspace, hrun t]
  · by_cases hspace : cmd.Space = ""
    · obtain ⟨err, r, c1, l, hrun, hw⟩ := setOrg_shape cmd pk st c
      cases err with
      | some e =>
        refine ⟨some e, r, c1, l, ?_, hw⟩
        intro t
        simp [TargetCommand.runBranch, horg, hspace, hrun t]
      | none =>
        obtain ⟨err2, r2, c2, l2, hrun2, hw2⟩ :=
          autoTargetSpace_shape cmd pk c1.TargetedOrganization.GUID r c1
        refine ⟨err2, r2, c2, l ++ l2, ?_, ?_⟩
        · intro t
          simp [TargetCommand.runBranch, horg, hspace, hrun t, hrun2 (t ++ l)]
        · rw [returnedWarnings_append, hw]
          simp only [hw2, displayedWarnings_append]
    · obtain ⟨err, r, c1, l, hrun, hw⟩ := setOrgAndSpace_shape cmd pk st c
      refine ⟨err, r, c1, l, ?_, hw⟩
      intro t
      simp [TargetCommand.runBranch, horg, hspace, hrun t]

/-- Claim C14: in every run of `Execute` that reaches the `switch`, the
warnings passed to `DisplayWarnings` during the run, in order of display, are
the concatenation in call order of the warnings the actor returned for the
actor calls of the run, the failing call included. -/
theorem Execute_displays_returned_warnings {σ : Type} (cmd : TargetCommand σ) (pk : Packages)
    (args : List String) (s : Session σ) (hreach : cmd.reachesSwitch s) :
    displayedWarnings (addedEvents s.trace (cmd.Execute pk args s).2.trace)
      = (returnedWarnings cmd.Actor
          (addedEvents s.trace (cmd.Execute pk args s).2.trace) s.remote).1 := by
  obtain ⟨pre, _, ha, hw, hE⟩ := Execute_of_reachesSwitch cmd pk args s hreach
  obtain ⟨err, r, c1, l, hrun, hret⟩ := runBranch_shape cmd pk s.remote s.Config
  have hb : cmd.runBranch pk { s with trace := s.trace ++ pre }
      = (err, { remote := r, Config := c1, trace := (s.trace ++ pre) ++ l }) :=
    hrun (s.trace ++ pre)
  have hpre := returnedWarnings_of_no_actor_call cmd.Actor pre s.remote ha
  rw [hE, hb]
  cases err with
  | some e =>
    simp only [List.append_assoc, addedEvents_append]
    rw [displayedWarnings_append, returnedWarnings_append, hpre, hw, hret]
  | none =>
    simp only
    obtain ⟨l3, hl3, _, hla3, hw3⟩ := report_frame cmd s.Config.currentUser.1
      ({ remote := r, Config := c1, trace := (s.trace ++ pre) ++ l } : Session σ)
    rw [hl3]
    simp only [List.append_assoc, addedEvents_append]
    rw [displayedWarnings_append, displayedWarnings_append, returnedWarnings_append,
      returnedWarnings_append, hpre, hw, hw3, hret]
    simp only [returnedWarnings_of_no_actor_call cmd.Actor l3 r hla3]

/-- Witness of claim C14 on the run whose organization lookup succeeds and
whose space lookup fails: the organization's warning is displayed, before the
warning of the failing space lookup. -/
theorem Execute_displays_returned_warnings_witness :
    displayedWarnings (addedEvents (session0 configTargeted).trace
        ((targetCommand "some-org" "some-space" targetActorSpaceFails).Execute packages0 []
          (session0 configTargeted)).2.trace)
      = (returnedWarnings (targetCommand "some-org" "some-space" targetActorSpaceFails).Actor
          (addedEvents (session0 configTargeted).trace
            ((targetCommand "some-org" "some-space" targetActorSpaceFails).Execute packages0 []
              (session0 configTargeted)).2.trace) (session0 configTargeted).remote).1 ∧
    displayedWarnings (addedEvents (session0 configTargeted).trace
        ((targetCommand "some-org" "some-space" targetActorSpaceFails).Execute packages0 []
          (session0 configTargeted)).2.trace) = ["org-warning", "space-warning"] ∧
    displayedWarnings (addedEvents (session0 configTargeted).trace
        ((targetCommand "some-org" "" targetActorListingFails).Execute packages0 []
          (session0 configTargeted)).2.trace) = ["org-warning", "spaces-warning"] :=
  ⟨Execute_displays_returned_warnings
      (targetCommand "some-org" "some-space" targetActorSpaceFails) packages0 []
      (session0 configTargeted) ⟨rfl, rfl, rfl⟩,
    by decide, by decide⟩

/-- Claim C18: in a run of `Execute` that reaches the `switch`, the error
`Execute` returns is the error of the chosen branch, so when the branch
completes without error `Execute` returns nil whatever the final session
state is, the report and its two advisories returning nil in every state;
and the branch is chosen by the emptiness of the two names alone: both given
runs `setOrgAndSpace`, only the organization runs `setOrg` then
`autoTargetSpace`, only the space runs `setSpace`, neither runs nothing. -/
theorem Execute_error_is_branch_error {σ : Type} (cmd : TargetCommand σ) (pk : Packages)
    (args : List String) (s : Session σ) (hreach : cmd.reachesSwitch s) :
    (cmd.Execute pk args s).1 = (cmd.runBranch pk s).1 ∧
    ((cmd.runBranch pk s).1 = none → (cmd.Execute pk args s).1 = none) ∧
    (∀ (user : configv3.User) (s4 : Session σ), (cmd.report user s4).1 = none) ∧
    (cmd.Organization ≠ "" → cmd.Space ≠ "" → cmd.runBranch pk s = cmd.setOrgAndSpace pk s) ∧
    (cmd.Organization ≠ "" → cmd.Space = "" →
      cmd.runBranch pk s =
        match cmd.setOrg pk s with
        | (some e, s1) => (some e, s1)
        | (none, s1) => cmd.autoTargetSpace pk s1.Config.TargetedOrganization.GUID s1) ∧
    (cmd.Organization = "" → cmd.Space ≠ "" → cmd.runBranch pk s = cmd.setSpace pk s) ∧
    (cmd.Organization = "" → cmd.Space = "" → cmd.runBranch pk s = (none, s)) := by
  have hrep : ∀ (user : configv3.User) (s4 : Session σ), (cmd.report user s4).1 = none := by
    intro user s4
    obtain ⟨l, hl, _⟩ := report_frame cmd user s4
    rw [hl]
  have hmain : (cmd.Execute pk args s).1 = (cmd.runBranch pk s).1 := by
    obtain ⟨pre, _, _, _, hE⟩ := Execute_of_reachesSwitch cmd pk args s hreach
    obtain ⟨err, r, c1, l, hrun, _⟩ := runBranch_shape cmd pk s.remote s.Config
    have hb : cmd.runBranch pk { s with trace := s.trace ++ pre }
        = (err, { remote := r, Config := c1, trace := (s.trace ++ pre) ++ l }) :=
      hrun (s.trace ++ pre)
    have hs : cmd.runBranch pk s
        = (err, { remote := r, Config := c1, trace := s.trace ++ l }) := hrun s.trace
    rw [hE, hb, hs]
    cases err with
    | some e => rfl
    | none => exact hrep _ _
  refine ⟨hmain, ?_, hrep, ?_, ?_, ?_, ?_⟩
  · intro h
    rw [hmain, h]
  · intro horg hspace
    simp [TargetCommand.runBranch, horg, hspace]
  · intro horg hspace
    simp [TargetCommand.runBranch, horg, hspace]
  · intro horg hspace
    simp [TargetCommand.runBranch, horg, hspace]
  · intro horg hspace
    simp [TargetCommand.runBranch, horg, hspace]

/-- Witness of claim C18: three runs whose branch completes without error and
which end with no organization targeted, with an organization but no space
targeted, and with both targeted; each returns nil. -/
theorem Execute_error_is_branch_error_witness :
    (((targetCommand "" "" targetActorOneSpace).Execute packages0 []
        (session0 configUntargeted)).1 = none ∧
      ((targetCommand "" "" targetActorOneSpace).Execute packages0 []
        (session0 configUntargeted)).2.Config.HasTargetedOrganization = false) ∧
    (((targetCommand "some-org" "" targetActorTwoSpaces).Execute packages0 []
        (session0 configTargeted)).1 = none ∧
      ((targetCommand "some-org" "" targetActorTwoSpaces).Execute packages0 []
        (session0 configTargeted)).2.Config.HasTargetedOrganization = true ∧
      ((targetCommand "some-org" "" targetActorTwoSpaces).Execute packages0 []
        (session0 configTargeted)).2.Config.HasTargetedSpace = false) ∧
    (((targetCommand "some-org" "some-space" targetActorOneSpace).Execute packages0 []
        (session0 configUntargeted)).1 = none ∧
      ((targetCommand "some-org" "some-space" targetActorOneSpace).Execute packages0 []
        (session0 configUntargeted)).2.Config.HasTargetedOrganization = true ∧
      ((targetCommand "some-org" "some-space" targetActorOneSpace).Execute packages0 []
        (session0 configUntargeted)).2.Config.HasTargetedSpace = true) :=
  ⟨⟨(Execute_error_is_branch_error (targetCommand "" "" targetActorOneSpace) packages0 []
        (session0 configUntargeted) ⟨rfl, rfl, rfl⟩).2.1 rfl, by decide⟩,
   ⟨(Execute_error_is_branch_error (targetCommand "some-org" "" targetActorTwoSpaces) packages0 []
        (session0 configTargeted) ⟨rfl, rfl, rfl⟩).2.1 rfl, by decide, by decide⟩,
   ⟨(Execute_error_is_branch_error (targetCommand "some-org" "some-space" targetActorOneSpace)
        packages0 [] (session0 configUntargeted) ⟨rfl, rfl, rfl⟩).2.1 rfl,
      by decide, by decide⟩⟩

/-! ## The buildpack in use -/

/-- Claim C21: for every application, `CalculatedBuildpack` is the explicit
`Buildpack` field when that field is non-empty and the `DetectedBuildpack`
field otherwise; so the result is the empty string exactly when both fields
are empty, and a non-empty explicit buildpack is returned whatever the
detected one is. -/
theorem CalculatedBuildpack_spec (application : Application) :
    (application.Buildpack ≠ "" →
      application.CalculatedBuildpack = application.Buildpack) ∧
    (application.Buildpack = "" →
      application.CalculatedBuildpack = application.DetectedBuildpack) ∧
    (application.CalculatedBuildpack = "" ↔
      application.Buildpack = "" ∧ application.DetectedBuildpack = "") := by
  unfold Application.CalculatedBuildpack
  by_cases h : application.Buildpack = ""
  · simp [h]
  · simp [h]

/-- Witness of claim C21: `appTwin` has the explicit buildpack `go`, `appPort`
has none and the detected buildpack `ruby`, the zero-value application has
neither. -/
theorem CalculatedBuildpack_spec_witness :
    Application.CalculatedBuildpack appTwin = appTwin.Buildpack ∧
    Application.CalculatedBuildpack appTwin = "go" ∧
    Application.CalculatedBuildpack appPort = appPort.DetectedBuildpack ∧
    Application.CalculatedBuildpack appPort = "ruby" ∧
    Application.CalculatedBuildpack Application.zero = "" ∧
    Application.CalculatedBuildpack
      { GUID := "g", Name := "n", Buildpack := "explicit", DetectedBuildpack := "detected",
        HealthCheckType := "port" } = "explicit" :=
  ⟨(CalculatedBuildpack_spec appTwin).1 (by decide),
   by decide,
   (CalculatedBuildpack_spec appPort).2.1 rfl,
   by decide,
   (CalculatedBuildpack_spec Application.zero).2.2.2 ⟨rfl, rfl⟩,
   (CalculatedBuildpack_spec
      { GUID := "g", Name := "n", Buildpack := "explicit", DetectedBuildpack := "detected",
        HealthCheckType := "port" }).1 (by decide)⟩

end Cli
